import Mathlib

/-!
Verification development for the compass-ocr document-batch orchestration
and extraction pipeline.  The TypeScript sources are shallowly embedded:
strings are lists of characters, JavaScript string operations are modelled
explicitly, the regular-expression cascades are run through a small
backtracking engine mirroring JavaScript match semantics, and the
asynchronous orchestrator is modelled as explicit state passing with an
oracle for the external OCR engines and the Redis publish channel.
-/

namespace Compass

/-- Strings as lists of characters (JavaScript strings over ASCII data). -/
abbrev Str := List Char

/-- JavaScript whitespace (`\s`) restricted to the ASCII range. -/
def isWs (c : Char) : Bool :=
  c = ' ' || c = '\t' || c = '\n' || c = '\r' || c = '\x0b' || c = '\x0c'

/-- `String.prototype.toLowerCase` on ASCII data. -/
def jsToLower (s : Str) : Str := s.map Char.toLower

/-- `String.prototype.trim`: drop leading and trailing whitespace. -/
def jsTrim (s : Str) : Str :=
  ((s.dropWhile isWs).reverse.dropWhile isWs).reverse

/-- Worker for `replace(/\s+/g, ' ')`: the flag records whether the
previous character was whitespace (whose run already emitted one `' '`). -/
def collapseWsAux : Bool → Str → Str
  | _, [] => []
  | prevWs, c :: rest =>
    if isWs c then
      if prevWs then collapseWsAux true rest
      else ' ' :: collapseWsAux true rest
    else c :: collapseWsAux false rest

/-- `replace(/\s+/g, ' ')`: collapse every whitespace run to one space. -/
def collapseWs (s : Str) : Str := collapseWsAux false s

/-- `String.prototype.startsWith`. -/
def jsStartsWith : Str → Str → Bool
  | _, [] => true
  | [], _ :: _ => false
  | c :: s, d :: t => c = d && jsStartsWith s t

/-- `String.prototype.includes` (substring test), haystack first. -/
def jsIncludes : Str → Str → Bool
  | [], needle => jsStartsWith [] needle
  | hay@(_ :: rest), needle => jsStartsWith hay needle || jsIncludes rest needle

/-- `String.prototype.split(' ')`: split on every single space character,
keeping empty segments (JavaScript semantics). -/
def splitOnSpaceAux : Str → Str → List Str
  | acc, [] => [acc.reverse]
  | acc, c :: rest =>
    if c = ' ' then acc.reverse :: splitOnSpaceAux [] rest
    else splitOnSpaceAux (c :: acc) rest

def splitOnSpace (s : Str) : List Str := splitOnSpaceAux [] s

/-! ## mapping.service.ts -/

structure TravellerInfo where
  traveller_id : Str
  traveller_name : Str
deriving DecidableEq, Repr

/-- The `normalize` closure of `fuzzy_match_name`:
`name.toLowerCase().trim().replace(/\s+/g, ' ')`. -/
def normalize (name : Str) : Str := collapseWs (jsTrim (jsToLower name))

/-- `fuzzy_match_name` from mapping.service.ts.  Scores are exact
rationals standing for the JavaScript numbers 1.0, 0.8 and the token
ratio. -/
def fuzzy_match_name (name1 name2 : Str) : ℚ :=
  let n1 := normalize name1
  let n2 := normalize name2
  if n1 = n2 then 1
  else if jsIncludes n1 n2 || jsIncludes n2 n1 then 0.8
  else
    let words1 := splitOnSpace n1
    let words2 := splitOnSpace n2
    let common_words := words1.filter (fun w => words2.contains w)
    let total_words := max words1.length words2.length
    if total_words = 0 then 0
    else (common_words.length : ℚ) / (total_words : ℚ)

/-- One step of the selection loop of `map_ticket_to_passenger`:
`if (score >= threshold && (!best_match || score > best_match.score))`. -/
def mtp_step (name : Str) (best : Option (Str × ℚ)) (t : TravellerInfo) :
    Option (Str × ℚ) :=
  let score := fuzzy_match_name name t.traveller_name
  let better : Bool := match best with
    | none => true
    | some b => decide (b.2 < score)
  if decide ((0.6 : ℚ) ≤ score) && better then some (t.traveller_id, score)
  else best

/-- `map_ticket_to_passenger` from mapping.service.ts.  A `none`
extracted name models JavaScript `undefined`; the guard
`!extracted_name` is also true for the empty string. -/
def map_ticket_to_passenger (extracted_name : Option Str)
    (travellers : List TravellerInfo) : Option Str :=
  if extracted_name = none ∨ extracted_name = some [] ∨ travellers = [] then
    none
  else
    match extracted_name with
    | none => none
    | some name =>
      (travellers.foldl (mtp_step name) none).map Prod.fst

/-! ## Spec-side reference definitions (Identity Matcher, §4.3) -/

/-- Whitespace-delimited tokens of a (normalized) name: split pieces with
empty pieces discarded.  Part of the spec's reference scoring function. -/
def specTokens (s : Str) : List Str := (splitOnSpace s).filter (· ≠ [])

/-- The spec's reference scoring function, following §4.3 word for word:
normalize both names, `1.0` on exact equality, else `0.8` on one-way
containment, else the ratio of shared whitespace-delimited tokens to the
larger token count, `0` if either name has zero tokens. -/
def score_spec (a b : Str) : ℚ :=
  let n1 := normalize a
  let n2 := normalize b
  if n1 = n2 then 1
  else if jsIncludes n1 n2 || jsIncludes n2 n1 then 0.8
  else
    let t1 := specTokens n1
    let t2 := specTokens n2
    if t1.length = 0 ∨ t2.length = 0 then 0
    else ((t1.filter (fun w => t2.contains w)).length : ℚ)
      / (max t1.length t2.length : ℚ)

/-- Maximal fuzzy score of a name over a travellers list (0 when empty). -/
def max_score (name : Str) (ts : List TravellerInfo) : ℚ :=
  (ts.map (fun t => fuzzy_match_name name t.traveller_name)).foldr max 0

/-- The spec's description of the Identity Matcher selection (§4.3): the
earliest traveller achieving the maximal score, provided that score is at
least 0.6; `none` on absent/empty name, empty list, or no candidate at
the threshold. -/
def matcher_spec (extracted_name : Option Str)
    (ts : List TravellerInfo) : Option Str :=
  match extracted_name with
  | none => none
  | some name =>
    if name = [] then none
    else
      let m := max_score name ts
      if (0.6 : ℚ) ≤ m then
        (ts.find? (fun t => fuzzy_match_name name t.traveller_name = m)).map
          (·.traveller_id)
      else none

/-! ## Keyword validation (flight.service.ts and hotel.service.ts) -/

def flight_keywords : List Str :=
  [ "pnr".data, "booking reference".data, "flight".data, "airline".data,
    "departure".data, "arrival".data, "passenger".data, "ticket".data,
    "boarding".data, "gate".data, "seat".data, "airport".data ]

/-- `validate_flight_ticket` from flight.service.ts. -/
def validate_flight_ticket (text : Str) : Bool :=
  let lower_text := jsToLower text
  let found_keywords := flight_keywords.filter
    (fun keyword => jsIncludes lower_text keyword)
  found_keywords.length ≥ 3

def hotel_keywords : List Str :=
  [ "hotel".data, "booking".data, "reservation".data, "check-in".data,
    "check-out".data, "check in".data, "check out".data, "guest".data,
    "room".data, "accommodation".data, "confirmation".data, "villa".data,
    "host".data ]

/-- `validate_hotel_booking` from hotel.service.ts. -/
def validate_hotel_booking (text : Str) : Bool :=
  let lower_text := jsToLower text
  let found_keywords := hotel_keywords.filter
    (fun keyword => jsIncludes lower_text keyword)
  found_keywords.length ≥ 3

/-! ## A small backtracking regular-expression engine (JavaScript match
semantics: leftmost match, ordered alternation, greedy/lazy quantifiers
with backtracking, capture groups, word boundaries, negative lookahead) -/

/-- Regular expressions.  `rep lo hi lazyQ r` is the bounded quantifier
`r{lo,hi}` (`hi` large enough to cover the subject suffices for `*`/`+`);
`grp i r` is capture group number `i`; `nla r` is `(?!r)`; `bos` is `^`
(no multiline flag anywhere in the sources). -/
inductive Re where
  | eps : Re
  | cls : (Char → Bool) → Re
  | seq : Re → Re → Re
  | alt : Re → Re → Re
  | grp : ℕ → Re → Re
  | rep : ℕ → ℕ → Bool → Re → Re
  | wordB : Re
  | bos : Re
  | nla : Re → Re

/-- JavaScript `\w` (word character), used by `\b`. -/
def isWordChar (c : Char) : Bool :=
  ('a' ≤ c && c ≤ 'z') || ('A' ≤ c && c ≤ 'Z') || ('0' ≤ c && c ≤ '9')
    || c = '_'

/-- Capture store: group index paired with captured text; entries written
later are consed in front, lookup takes the first hit. -/
abbrev Caps := List (ℕ × Str)

/-- Matcher state: remaining subject, the character just before it (for
`\b` and `^`), and the captures recorded so far. -/
structure MSt where
  rest : Str
  prev : Option Char
  caps : Caps

/-- Quantifier worker: all ways to run `runInner` between `lo` and `hi`
times from `st`, deepest-first when greedy, shallow-first when lazy.  An
iteration that consumes nothing ends the loop (the JavaScript rule for
empty quantifier iterations). -/
def runRep (runInner : MSt → List MSt) : ℕ → ℕ → Bool → MSt → List MSt
  | _, 0, _, st => [st]
  | lo, hi + 1, lazyQ, st =>
    let deeper := (runInner st).flatMap (fun st' =>
      if st'.rest.length < st.rest.length then
        runRep runInner (lo - 1) hi lazyQ st'
      else [])
    let stay := if lo = 0 then [st] else []
    if lazyQ then stay ++ deeper else deeper ++ stay

/-- All ways `r` can match a prefix of `st.rest`, in JavaScript
backtracking priority order (head = the match the engine commits to). -/
def runRe : Re → MSt → List MSt
  | .eps, st => [st]
  | .cls p, st =>
    match st.rest with
    | c :: t => if p c then [⟨t, some c, st.caps⟩] else []
    | [] => []
  | .seq r1 r2, st => (runRe r1 st).flatMap (runRe r2)
  | .alt r1 r2, st => runRe r1 st ++ runRe r2 st
  | .grp i r, st =>
    (runRe r st).map (fun st' =>
      { st' with
        caps := (i, st.rest.take (st.rest.length - st'.rest.length))
          :: st'.caps })
  | .rep lo hi lazyQ r, st => runRep (runRe r) lo hi lazyQ st
  | .wordB, st =>
    let a := match st.prev with | some c => isWordChar c | none => false
    let b := match st.rest with | c :: _ => isWordChar c | [] => false
    if a ≠ b then [st] else []
  | .bos, st => match st.prev with | none => [st] | some _ => []
  | .nla r, st => match runRe r st with | [] => [st] | _ :: _ => []

end Compass

namespace Compass

/-- A successful JavaScript match: start index, `match[0]`, captures. -/
structure JsMatch where
  start : ℕ
  matched : Str
  caps : Caps
deriving DecidableEq, Repr

/-- `match[i]` for `i ≥ 1`: the last value written for group `i`,
`none` when the group did not participate. -/
def capGet (m : JsMatch) (i : ℕ) : Option Str :=
  (m.caps.find? (fun p => p.1 == i)).map (·.2)

/-- JavaScript truthiness of `match[i]`-style optional strings
(`undefined` and `""` are falsy). -/
def jsFalsy (o : Option Str) : Bool :=
  o = none || o = some []

/-- Leftmost search: try the pattern at `pos`, advance one character on
failure.  Returns the match plus the state needed to continue a global
scan (subject after the match, preceding character). -/
def scanFrom (r : Re) : ℕ → Option Char → Str → Option (JsMatch × Str × Option Char)
  | pos, prev, s =>
    match runRe r ⟨s, prev, []⟩ with
    | st' :: _ =>
      let k := s.length - st'.rest.length
      let matched := s.take k
      let prevAfter := match matched.reverse with
        | [] => prev
        | c :: _ => some c
      some (⟨pos, matched, st'.caps⟩, st'.rest, prevAfter)
    | [] =>
      match s with
      | [] => none
      | c :: t => scanFrom r (pos + 1) (some c) t

/-- `text.match(re)` for a non-global regex: the first match. -/
def jsMatch (r : Re) (text : Str) : Option JsMatch :=
  (scanFrom r 0 none text).map (·.1)

/-- Worker for `matchAll`; fuel bounds the number of matches (each match
consumes at least one character, or the scan position advances by one on
an empty match, exactly as the JavaScript `lastIndex` rule). -/
def jsMatchAllAux (r : Re) : ℕ → ℕ → Option Char → Str → List JsMatch
  | 0, _, _, _ => []
  | fuel + 1, pos, prev, s =>
    match scanFrom r pos prev s with
    | none => []
    | some (m, rest', prev') =>
      if m.matched = [] then
        match rest' with
        | [] => [m]
        | c :: t => m :: jsMatchAllAux r fuel (m.start + 1) (some c) t
      else m :: jsMatchAllAux r fuel (m.start + m.matched.length) prev' rest'

/-- `[...text.matchAll(re)]` for a global regex. -/
def jsMatchAll (r : Re) (text : Str) : List JsMatch :=
  jsMatchAllAux r (text.length + 1) 0 none text

/-- Sequence a list of regexes. -/
def reSeq (l : List Re) : Re := l.foldr Re.seq Re.eps

/-- Ordered alternation of a non-empty list (JavaScript tries left
to right); the empty list never matches. -/
def reAlts : List Re → Re
  | [] => Re.cls (fun _ => false)
  | [r] => r
  | r :: rest => Re.alt r (reAlts rest)

/-- Case-sensitive string literal. -/
def cstr (s : String) : Re :=
  reSeq (s.data.map (fun c => Re.cls (fun x => x == c)))

/-- Case-insensitive string literal (an `/i` pattern's literal part). -/
def istr (s : String) : Re :=
  reSeq (s.data.map (fun c => Re.cls (fun x => x.toLower == c.toLower)))

def digitC (c : Char) : Bool := '0' ≤ c && c ≤ '9'
def upperC (c : Char) : Bool := 'A' ≤ c && c ≤ 'Z'
def lowerC (c : Char) : Bool := 'a' ≤ c && c ≤ 'z'
/-- `[A-Z]` (equally `[a-z]`) under the `/i` flag. -/
def letterC (c : Char) : Bool := upperC c || lowerC c

/-! ## flight.service.ts: extraction patterns and extract_flight_data -/

def reStar (n : ℕ) (r : Re) : Re := Re.rep 0 n false r
def rePlus (n : ℕ) (r : Re) : Re := Re.rep 1 n false r
def reOpt (r : Re) : Re := Re.rep 0 1 false r
def reCnt (k : ℕ) (r : Re) : Re := Re.rep k k false r
def reRng (a b : ℕ) (r : Re) : Re := Re.rep a b false r

/-- `/(?:pnr|booking\s+reference)[:\s]*([A-Z0-9]{6})/i`. -/
def flight_pnr_pattern1 (n : ℕ) : Re :=
  reSeq [ Re.alt (istr "pnr")
            (reSeq [istr "booking", rePlus n (Re.cls isWs), istr "reference"]),
          reStar n (Re.cls (fun c => c == ':' || isWs c)),
          Re.grp 1 (reCnt 6 (Re.cls (fun c => letterC c || digitC c))) ]

/-- `/\b([A-Z0-9]{6})\b(?!\s*(?:hrs|hours|pm|am))/i`. -/
def flight_pnr_pattern2 (n : ℕ) : Re :=
  reSeq [ Re.wordB,
          Re.grp 1 (reCnt 6 (Re.cls (fun c => letterC c || digitC c))),
          Re.wordB,
          Re.nla (reSeq [reStar n (Re.cls isWs),
            reAlts [istr "hrs", istr "hours", istr "pm", istr "am"]]) ]

/-- `(?:Mr|Ms|Mrs|Miss|Dr)`. -/
def titleAlt : Re := reAlts [istr "Mr", istr "Ms", istr "Mrs", istr "Miss", istr "Dr"]

/-- `[A-Z][a-z]+` under the `/i` flag. -/
def capWordI (n : ℕ) : Re := reSeq [Re.cls letterC, rePlus n (Re.cls letterC)]

/-- `[A-Z][a-z]+(?:\s+[A-Z][a-z]+)+` under `/i`. -/
def flight_name_core (n : ℕ) : Re :=
  reSeq [capWordI n, rePlus n (reSeq [rePlus n (Re.cls isWs), capWordI n])]

/-- `/(?:Mr|Ms|Mrs|Miss|Dr)[\s\.]+([A-Z][a-z]+(?:\s+[A-Z][a-z]+)+)/i`. -/
def flight_name_pattern1 (n : ℕ) : Re :=
  reSeq [titleAlt, rePlus n (Re.cls (fun c => isWs c || c == '.')),
         Re.grp 1 (flight_name_core n)]

/-- `/passenger\s+information[\s\n]+(?:[A-Z][a-z]+\s+)?([A-Z][a-z]+(?:\s+[A-Z][a-z]+)+)/i`. -/
def flight_name_pattern2 (n : ℕ) : Re :=
  reSeq [istr "passenger", rePlus n (Re.cls isWs), istr "information",
         rePlus n (Re.cls isWs),
         reOpt (reSeq [capWordI n, rePlus n (Re.cls isWs)]),
         Re.grp 1 (flight_name_core n)]

/-- `/(?:passenger|name)[:\s]+([A-Z][a-z]+(?:\s+[A-Z][a-z]+)+)/i`. -/
def flight_name_pattern3 (n : ℕ) : Re :=
  reSeq [Re.alt (istr "passenger") (istr "name"),
         rePlus n (Re.cls (fun c => c == ':' || isWs c)),
         Re.grp 1 (flight_name_core n)]

/-- `/passenger\s+information[\s\S]{0,100}?(?:Mr|Ms|Mrs|Miss|Dr)?[\s\.]*([A-Z][a-z]+\s+[A-Z][a-z]+)/i`. -/
def flight_name_fallback (n : ℕ) : Re :=
  reSeq [istr "passenger", rePlus n (Re.cls isWs), istr "information",
         Re.rep 0 100 true (Re.cls (fun _ => true)),
         reOpt titleAlt,
         reStar n (Re.cls (fun c => isWs c || c == '.')),
         Re.grp 1 (reSeq [capWordI n, rePlus n (Re.cls isWs), capWordI n])]

/-- `/([A-Z]{2,3})\s*(\d{3,4})\b/i`. -/
def flight_number_pattern1 (n : ℕ) : Re :=
  reSeq [Re.grp 1 (reRng 2 3 (Re.cls letterC)), reStar n (Re.cls isWs),
         Re.grp 2 (reRng 3 4 (Re.cls digitC)), Re.wordB]

/-- `/\b([A-Z]{2,3}\s?\d{3,4})\b/i`. -/
def flight_number_pattern2 : Re :=
  reSeq [Re.wordB,
         Re.grp 1 (reSeq [reRng 2 3 (Re.cls letterC), reOpt (Re.cls isWs),
           reRng 3 4 (Re.cls digitC)]),
         Re.wordB]

/-- `/^([A-Z]{2,3})/` (case-sensitive, run on the extracted number). -/
def airline_code_pattern : Re :=
  reSeq [Re.bos, Re.grp 1 (reRng 2 3 (Re.cls upperC))]

/-- `(?:Jan|Feb|...|Dec)` month alternation, in source order. -/
def monthAlt : Re :=
  reAlts [istr "Jan", istr "Feb", istr "Mar", istr "Apr", istr "May",
          istr "Jun", istr "Jul", istr "Aug", istr "Sep", istr "Oct",
          istr "Nov", istr "Dec"]

/-- `/(\d{1,2})\s+(Jan|...|Dec)[a-z]*\s+(\d{4})/gi`. -/
def flight_date_pattern1 (n : ℕ) : Re :=
  reSeq [Re.grp 1 (reRng 1 2 (Re.cls digitC)), rePlus n (Re.cls isWs),
         Re.grp 2 monthAlt, reStar n (Re.cls letterC),
         rePlus n (Re.cls isWs), Re.grp 3 (reCnt 4 (Re.cls digitC))]

/-- `/(\d{1,2})[\/\-](\d{1,2})[\/\-](\d{2,4})/g`. -/
def flight_date_pattern2 : Re :=
  reSeq [Re.grp 1 (reRng 1 2 (Re.cls digitC)),
         Re.cls (fun c => c == '/' || c == '-'),
         Re.grp 2 (reRng 1 2 (Re.cls digitC)),
         Re.cls (fun c => c == '/' || c == '-'),
         Re.grp 3 (reRng 2 4 (Re.cls digitC))]

/-- `/(\d{1,2}):(\d{2})\s*(?:hrs|hours|am|pm)?/gi`. -/
def flight_time_pattern (n : ℕ) : Re :=
  reSeq [Re.grp 1 (reRng 1 2 (Re.cls digitC)), Re.cls (fun c => c == ':'),
         Re.grp 2 (reCnt 2 (Re.cls digitC)), reStar n (Re.cls isWs),
         reOpt (reAlts [istr "hrs", istr "hours", istr "am", istr "pm"])]

/-- `/([A-Z]{3})\s+-\s+([A-Za-z\s]+(?:Airport|International Airport))/i`,
run with flags `gi`. -/
def flight_airport_pattern1 (n : ℕ) : Re :=
  reSeq [Re.grp 1 (reCnt 3 (Re.cls letterC)), rePlus n (Re.cls isWs),
         Re.cls (fun c => c == '-'), rePlus n (Re.cls isWs),
         Re.grp 2 (reSeq [rePlus n (Re.cls (fun c => letterC c || isWs c)),
           Re.alt (istr "Airport") (istr "International Airport")])]

/-- `/([A-Z]{3})\s+to\s+([A-Z]{3})/i`, run with flags `gi`. -/
def flight_airport_pattern2 (n : ℕ) : Re :=
  reSeq [Re.grp 1 (reCnt 3 (Re.cls letterC)), rePlus n (Re.cls isWs),
         istr "to", rePlus n (Re.cls isWs),
         Re.grp 2 (reCnt 3 (Re.cls letterC))]

/-- `/([A-Z]{3})\s+-\s+([A-Za-z\s]+)/i`, run with flags `gi`. -/
def flight_airport_pattern3 (n : ℕ) : Re :=
  reSeq [Re.grp 1 (reCnt 3 (Re.cls letterC)), rePlus n (Re.cls isWs),
         Re.cls (fun c => c == '-'), rePlus n (Re.cls isWs),
         Re.grp 2 (rePlus n (Re.cls (fun c => letterC c || isWs c)))]

/-- `/([A-Z][a-zA-Z\s]+(?:Airport|International Airport))/g`
(case-sensitive fallback). -/
def flight_airport_name_pattern (n : ℕ) : Re :=
  Re.grp 1 (reSeq [Re.cls upperC,
    rePlus n (Re.cls (fun c => upperC c || lowerC c || isWs c)),
    Re.alt (cstr "Airport") (cstr "International Airport")])

/-- First pattern in a cascade for which the handler accepts the match
(the `for ... { if (...) { ...; break; } }` loops of the source). -/
def firstSome {α β : Type} : List α → (α → Option β) → Option β
  | [], _ => none
  | x :: rest, f =>
    match f x with
    | some y => some y
    | none => firstSome rest f

/-- The `data` record built by `extract_flight_data` (all fields optional,
absent ≠ empty).  `from_` stands for the source's `from` field. -/
structure FlightData where
  pnr : Option Str := none
  passenger_name : Option Str := none
  flight_number : Option Str := none
  airline : Option Str := none
  departure_date : Option Str := none
  arrival_date : Option Str := none
  departure_time : Option Str := none
  arrival_time : Option Str := none
  departure_airport : Option Str := none
  arrival_airport : Option Str := none
  from_ : Option Str := none
  to_ : Option Str := none
deriving DecidableEq, Repr

def flight_false_positives : List Str :=
  [ "Information".data, "Booking Reference".data, "Payment Status".data,
    "Complete".data, "Abu Dhabi".data, "Mumbai".data, "Travel Time".data ]

/-- `extract_flight_data` from flight.service.ts, field by field in source
order.  Quantifier bounds are instantiated with `text.length + 1`, which
covers every possible repetition count on `text`. -/
def extract_flight_data (text : Str) : FlightData :=
  let n := text.length + 1
  let pnr := firstSome [flight_pnr_pattern1 n, flight_pnr_pattern2 n] (fun p =>
    match jsMatch p text with
    | some m =>
      match capGet m 1 with
      | some g =>
        if g ≠ [] ∧ g.length = 6 then some (g.map Char.toUpper) else none
      | none => none
    | none => none)
  let passenger_name0 := firstSome
    [flight_name_pattern1 n, flight_name_pattern2 n, flight_name_pattern3 n]
    (fun p =>
      match jsMatch p text with
      | some m =>
        match capGet m 1 with
        | some g =>
          if g ≠ [] then
            let name := jsTrim g
            if flight_false_positives.any (fun fp => jsIncludes name fp) then
              none
            else some name
          else none
        | none => none
      | none => none)
  let passenger_name := match passenger_name0 with
    | some nm => some nm
    | none =>
      match jsMatch (flight_name_fallback n) text with
      | some m =>
        match capGet m 1 with
        | some g => if g ≠ [] then some (jsTrim g) else none
        | none => none
      | none => none
  let flight_number := firstSome
    [flight_number_pattern1 n, flight_number_pattern2] (fun p =>
      match jsMatch p text with
      | some m =>
        let flight_num := (m.matched.filter (fun c => !isWs c)).map Char.toUpper
        if ¬(flight_num ≠ [] ∧ flight_num.all digitC) ∧ flight_num.length ≥ 4
        then some flight_num
        else none
      | none => none)
  let airline := match flight_number with
    | some fn =>
      if fn = [] then none
      else
        match jsMatch airline_code_pattern fn with
        | some m => capGet m 1
        | none => none
    | none => none
  let dates := (jsMatchAll (flight_date_pattern1 n) text).map (·.matched)
    ++ (jsMatchAll flight_date_pattern2 text).map (·.matched)
  let times := (jsMatchAll (flight_time_pattern n) text).map
    (fun m => jsTrim m.matched)
  let airport_matches :=
    [flight_airport_pattern1 n, flight_airport_pattern2 n,
     flight_airport_pattern3 n].flatMap (fun p =>
      (jsMatchAll p text).filterMap (fun m =>
        match capGet m 1, capGet m 2 with
        | some g1, some g2 =>
          if g1 ≠ [] ∧ g2 ≠ [] then some (g1.map Char.toUpper, jsTrim g2)
          else none
        | _, _ => none))
  let departure_airport := (airport_matches.get? 0).map (·.1)
  let from0 := (airport_matches.get? 0).map
    (fun a => if a.2 = [] then a.1 else a.2)
  let arrival_airport := (airport_matches.get? 1).map (·.1)
  let to0 := (airport_matches.get? 1).map
    (fun a => if a.2 = [] then a.1 else a.2)
  let airports := if jsFalsy from0 || jsFalsy to0 then
      (jsMatchAll (flight_airport_name_pattern n) text).foldl (fun acc m =>
        match capGet m 1 with
        | some g =>
          if g ≠ [] ∧ ¬ acc.contains g then acc ++ [jsTrim g] else acc
        | none => acc) []
    else []
  let from_ := if airports.length ≥ 1 ∧ jsFalsy from0 then airports.get? 0
    else from0
  let to1 := if airports.length ≥ 2 ∧ jsFalsy to0 then airports.get? 1
    else to0
  { pnr := pnr, passenger_name := passenger_name,
    flight_number := flight_number, airline := airline,
    departure_date := dates.get? 0, arrival_date := dates.get? 1,
    departure_time := times.get? 0, arrival_time := times.get? 1,
    departure_airport := departure_airport,
    arrival_airport := arrival_airport, from_ := from_, to_ := to1 }

/-! ## hotel.service.ts: extraction patterns and extract_hotel_data -/

/-- `(?:Villa|Hotel|Resort|Lodge|Inn|Suites|Palace)`. -/
def hotelSuffixAlt : Re :=
  reAlts [istr "Villa", istr "Hotel", istr "Resort", istr "Lodge",
          istr "Inn", istr "Suites", istr "Palace"]

/-- `/^([A-Za-z0-9\s]+(?:Villa|...|Palace))[\.\s]/i`. -/
def hotel_name_pattern1 (n : ℕ) : Re :=
  reSeq [Re.bos,
         Re.grp 1 (reSeq [rePlus n
             (Re.cls (fun c => letterC c || digitC c || isWs c)),
           hotelSuffixAlt]),
         Re.cls (fun c => c == '.' || isWs c)]

/-- `/([A-Z][a-zA-Z\s&]+(?:Villa|...|Palace))/i`. -/
def hotel_name_pattern2 (n : ℕ) : Re :=
  Re.grp 1 (reSeq [Re.cls letterC,
    rePlus n (Re.cls (fun c => letterC c || isWs c || c == '&')),
    hotelSuffixAlt])

/-- `/hotel[:\s]+([A-Z][a-zA-Z\s&]+)/i`. -/
def hotel_name_pattern3 (n : ℕ) : Re :=
  reSeq [istr "hotel", rePlus n (Re.cls (fun c => c == ':' || isWs c)),
         Re.grp 1 (reSeq [Re.cls letterC,
           rePlus n (Re.cls (fun c => letterC c || isWs c || c == '&'))])]

/-- `/confirmation\s+code[:\s]+([A-Z0-9]{6,12})/i`. -/
def hotel_conf_pattern1 (n : ℕ) : Re :=
  reSeq [istr "confirmation", rePlus n (Re.cls isWs), istr "code",
         rePlus n (Re.cls (fun c => c == ':' || isWs c)),
         Re.grp 1 (reRng 6 12 (Re.cls (fun c => letterC c || digitC c)))]

/-- `/booking\s+reference[:\s]+([A-Z0-9]{6,12})/i`. -/
def hotel_conf_pattern2 (n : ℕ) : Re :=
  reSeq [istr "booking", rePlus n (Re.cls isWs), istr "reference",
         rePlus n (Re.cls (fun c => c == ':' || isWs c)),
         Re.grp 1 (reRng 6 12 (Re.cls (fun c => letterC c || digitC c)))]

/-- `/reservation\s+id[:\s]+([A-Z0-9]{6,12})/i`. -/
def hotel_conf_pattern3 (n : ℕ) : Re :=
  reSeq [istr "reservation", rePlus n (Re.cls isWs), istr "id",
         rePlus n (Re.cls (fun c => c == ':' || isWs c)),
         Re.grp 1 (reRng 6 12 (Re.cls (fun c => letterC c || digitC c)))]

/-- `/\b([A-Z0-9]{8,12})\b(?!\s*(?:paid|amount|guests))/i`. -/
def hotel_conf_pattern4 (n : ℕ) : Re :=
  reSeq [Re.wordB,
         Re.grp 1 (reRng 8 12 (Re.cls (fun c => letterC c || digitC c))),
         Re.wordB,
         Re.nla (reSeq [reStar n (Re.cls isWs),
           reAlts [istr "paid", istr "amount", istr "guests"]])]

/-- `check[- ]?in` / `check[- ]?out` prefix under `/i`. -/
def checkLbl (word : String) (n : ℕ) (rest : List Re) : Re :=
  reSeq ([istr "check", reOpt (Re.cls (fun c => c == '-' || c == ' ')),
          istr word, reStar n (Re.cls (fun c => c == ':' || isWs c))] ++ rest)

/-- `(\d{1,2}):(\d{2})\s*(AM|PM)` with capture indices `b`, `b+1`, `b+2`. -/
def timeAmPm (n b : ℕ) : Re :=
  reSeq [Re.grp b (reRng 1 2 (Re.cls digitC)), Re.cls (fun c => c == ':'),
         Re.grp (b + 1) (reCnt 2 (Re.cls digitC)), reStar n (Re.cls isWs),
         Re.grp (b + 2) (Re.alt (istr "AM") (istr "PM"))]

/-- `([A-Za-z]{3}),\s+([A-Za-z]{3})\s+(\d{1,2})` with capture indices
`b`, `b+1`, `b+2`. -/
def wdayDate (n b : ℕ) : Re :=
  reSeq [Re.grp b (reCnt 3 (Re.cls letterC)), Re.cls (fun c => c == ','),
         rePlus n (Re.cls isWs), Re.grp (b + 1) (reCnt 3 (Re.cls letterC)),
         rePlus n (Re.cls isWs), Re.grp (b + 2) (reRng 1 2 (Re.cls digitC))]

/-- The three `check_in_patterns` of the source, in order. -/
def hotel_check_in_patterns (n : ℕ) : List Re :=
  [ checkLbl "in" n [timeAmPm n 1],
    checkLbl "in" n [wdayDate n 1],
    reSeq [timeAmPm n 1, rePlus n (Re.cls isWs), wdayDate n 4] ]

/-- The two `check_out_patterns` of the source, in order. -/
def hotel_check_out_patterns (n : ℕ) : List Re :=
  [ checkLbl "out" n [timeAmPm n 1],
    checkLbl "out" n [wdayDate n 1] ]

/-- `/(\d{1,2}):(\d{2})\s*(AM|PM)\s+(\d{1,2}):(\d{2})\s*(AM|PM)/i`. -/
def hotel_times_pattern (n : ℕ) : Re :=
  reSeq [timeAmPm n 1, rePlus n (Re.cls isWs), timeAmPm n 4]

/-- `/address[:\s]+([A-Z][a-zA-Z\s,]+(?:Emirates|Country|State|City))/i`. -/
def hotel_place_pattern1 (n : ℕ) : Re :=
  reSeq [istr "address", rePlus n (Re.cls (fun c => c == ':' || isWs c)),
         Re.grp 1 (reSeq [Re.cls letterC,
           rePlus n (Re.cls (fun c => letterC c || isWs c || c == ',')),
           reAlts [istr "Emirates", istr "Country", istr "State",
                   istr "City"]])]

/-- `/([A-Z][a-zA-Z\s]+(?:Hills|City|Dubai|Abu Dhabi|Emirates))/i`. -/
def hotel_place_pattern2 (n : ℕ) : Re :=
  Re.grp 1 (reSeq [Re.cls letterC,
    rePlus n (Re.cls (fun c => letterC c || isWs c)),
    reAlts [istr "Hills", istr "City", istr "Dubai", istr "Abu Dhabi",
            istr "Emirates"]])

/-- `/([A-Z][a-zA-Z\s,]+(?:United Arab Emirates|UAE|USA|UK))/i`. -/
def hotel_place_pattern3 (n : ℕ) : Re :=
  Re.grp 1 (reSeq [Re.cls letterC,
    rePlus n (Re.cls (fun c => letterC c || isWs c || c == ',')),
    reAlts [istr "United Arab Emirates", istr "UAE", istr "USA",
            istr "UK"]])

/-- `/who'?s\s+coming[\s\n]+([A-Za-z\s,]+(?:Patel|Doe|Smith|etc))/i`. -/
def hotel_guest_pattern1 (n : ℕ) : Re :=
  reSeq [istr "who", reOpt (Re.cls (fun c => c == '\'')), istr "s",
         rePlus n (Re.cls isWs), istr "coming", rePlus n (Re.cls isWs),
         Re.grp 1 (reSeq [rePlus n
             (Re.cls (fun c => letterC c || isWs c || c == ',')),
           reAlts [istr "Patel", istr "Doe", istr "Smith", istr "etc"]])]

/-- `/guests?[:\s]+([A-Za-z\s,]+)/i`. -/
def hotel_guest_pattern2 (n : ℕ) : Re :=
  reSeq [istr "guest", reOpt (Re.cls (fun c => c.toLower == 's')),
         rePlus n (Re.cls (fun c => c == ':' || isWs c)),
         Re.grp 1 (rePlus n (Re.cls (fun c => letterC c || isWs c || c == ',')))]

/-- `replace(/\.$/, '')`: strip one trailing dot. -/
def stripTrailingDot (s : Str) : Str :=
  match s.reverse with
  | '.' :: t => t.reverse
  | _ => s

/-- The `data` record built by `extract_hotel_data`. -/
structure HotelData where
  guest_name : Option Str := none
  hotel_name : Option Str := none
  booking_reference : Option Str := none
  confirmation_code : Option Str := none
  check_in_date : Option Str := none
  check_in_time : Option Str := none
  check_out_date : Option Str := none
  check_out_time : Option Str := none
  place : Option Str := none
  address : Option Str := none
deriving DecidableEq, Repr

/-- `extract_hotel_data` from hotel.service.ts, statement by statement in
source order. -/
def extract_hotel_data (text : Str) : HotelData :=
  let n := text.length + 1
  let hotel_name := firstSome
    [hotel_name_pattern1 n, hotel_name_pattern2 n, hotel_name_pattern3 n]
    (fun p =>
      match jsMatch p text with
      | some m =>
        match capGet m 1 with
        | some g =>
          if g ≠ [] then some (stripTrailingDot (jsTrim g)) else none
        | none => none
      | none => none)
  let confirmation := firstSome
    [hotel_conf_pattern1 n, hotel_conf_pattern2 n, hotel_conf_pattern3 n,
     hotel_conf_pattern4 n] (fun p =>
      match jsMatch p text with
      | some m =>
        match capGet m 1 with
        | some g => if g ≠ [] then some (g.map Char.toUpper) else none
        | none => none
      | none => none)
  -- check-in block: on any pattern hit, time and date come from the two
  -- inner `text.match` calls of the loop body
  let check_in_hit := (hotel_check_in_patterns n).any
    (fun p => (jsMatch p text).isSome)
  let check_in_time0 :=
    if check_in_hit then
      match jsMatch (checkLbl "in" n [timeAmPm n 1]) text with
      | some tm =>
        match capGet tm 1, capGet tm 2, capGet tm 3 with
        | some h, some mi, some ap => some (h ++ [':'] ++ mi ++ [' '] ++ ap)
        | _, _, _ => none
      | none => none
    else none
  let check_in_date0 :=
    if check_in_hit then
      match jsMatch (wdayDate n 1) text with
      | some dm =>
        match capGet dm 1, capGet dm 2, capGet dm 3 with
        | some w, some mo, some d =>
          some (w ++ [',', ' '] ++ mo ++ [' '] ++ d)
        | _, _, _ => none
      | none => none
    else none
  -- check-out loop (no break in the source: every pattern is tried)
  let check_out_time0 := (hotel_check_out_patterns n).foldl
    (fun acc p =>
      match jsMatch p text with
      | some m =>
        match capGet m 1, capGet m 2, capGet m 3 with
        | some g1, some g2, some g3 =>
          if g1 ≠ [] ∧ g2 ≠ [] ∧ g3 ≠ [] ∧ g1.length ≤ 2 then
            some (g1 ++ [':'] ++ g2 ++ [' '] ++ g3)
          else acc
        | _, _, _ => acc
      | none => acc) none
  let dates_array := (jsMatchAll (wdayDate n 1) text).filterMap (fun m =>
    match capGet m 1, capGet m 2, capGet m 3 with
    | some w, some mo, some d => some (w ++ [',', ' '] ++ mo ++ [' '] ++ d)
    | _, _, _ => none)
  let check_in_date := if dates_array.length ≥ 1 ∧ jsFalsy check_in_date0
    then dates_array.get? 0 else check_in_date0
  let check_out_date := if dates_array.length ≥ 2 then dates_array.get? 1
    else none
  let times_pair := jsMatch (hotel_times_pattern n) text
  let check_in_time := match times_pair with
    | some m =>
      if jsFalsy check_in_time0 then
        match capGet m 1, capGet m 2, capGet m 3 with
        | some g1, some g2, some g3 =>
          some (g1 ++ [':'] ++ g2 ++ [' '] ++ g3)
        | _, _, _ => check_in_time0
      else check_in_time0
    | none => check_in_time0
  let check_out_time := match times_pair with
    | some m =>
      if jsFalsy check_out_time0 then
        match capGet m 4, capGet m 5, capGet m 6 with
        | some g4, some g5, some g6 =>
          some (g4 ++ [':'] ++ g5 ++ [' '] ++ g6)
        | _, _, _ => check_out_time0
      else check_out_time0
    | none => check_out_time0
  let place := firstSome
    [hotel_place_pattern1 n, hotel_place_pattern2 n, hotel_place_pattern3 n]
    (fun p =>
      match jsMatch p text with
      | some m =>
        match capGet m 1 with
        | some g =>
          if g ≠ [] then
            let pl := jsTrim g
            if jsIncludes (jsToLower pl) "villa".data
              || jsIncludes (jsToLower pl) "hotel".data then none
            else some pl
          else none
        | none => none
      | none => none)
  let guest_name := match firstSome
    [hotel_guest_pattern1 n, hotel_guest_pattern2 n] (fun p =>
      match jsMatch p text with
      | some m =>
        match capGet m 1 with
        | some g => if g ≠ [] then some g else none
        | none => none
      | none => none) with
    | some g =>
      let guests := jsTrim g
      let first_guest := jsTrim (guests.takeWhile (fun c => c ≠ ','))
      if first_guest ≠ [] then some first_guest else none
    | none => none
  { guest_name := guest_name, hotel_name := hotel_name,
    booking_reference := confirmation, confirmation_code := confirmation,
    check_in_date := check_in_date, check_in_time := check_in_time,
    check_out_date := check_out_date, check_out_time := check_out_time,
    place := place, address := place }

/-! ## Post-OCR pipeline stage of process_flight_ocr / process_hotel_ocr
(the part of each service that is a pure function of the recognized
text: validate, then extract) -/

inductive OcrStatus where
  | success
  | invalid
  | error
deriving DecidableEq, Repr

structure FlightOCRResult where
  status : OcrStatus
  data : Option FlightData := none
  error : Option Str := none
  raw_text : Option Str := none
deriving DecidableEq, Repr

structure HotelOCRResult where
  status : OcrStatus
  data : Option HotelData := none
  error : Option Str := none
  raw_text : Option Str := none
deriving DecidableEq, Repr

/-- `process_flight_ocr` after OCR succeeded with recognized `text`
(flight.service.ts lines 262-284): validation failure returns `invalid`
carrying the raw text, otherwise `success` with the extracted fields. -/
def flight_ocr_from_text (text : Str) : FlightOCRResult :=
  if validate_flight_ticket text = false then
    { status := .invalid,
      error := some "Text does not contain flight ticket information".data,
      raw_text := some text }
  else
    { status := .success, data := some (extract_flight_data text),
      raw_text := some text }

/-- `process_hotel_ocr` after OCR succeeded with recognized `text`
(hotel.service.ts lines 235-257). -/
def hotel_ocr_from_text (text : Str) : HotelOCRResult :=
  if validate_hotel_booking text = false then
    { status := .invalid,
      error := some "Text does not contain hotel booking information".data,
      raw_text := some text }
  else
    { status := .success, data := some (extract_hotel_data text),
      raw_text := some text }

/-! ## process.router.ts: the batch orchestrator `process_documents_async`

The external effects are modelled explicitly: an `Oracle` fixes what the
OCR services return for each unit (`Except.error msg` models a rejected
promise reaching the router's per-unit `catch`; the services themselves
catch their internal errors and return `status: 'error'`), and whether
each successive Redis publish succeeds.  `publish_to_redis`
(redis.ts lines 46-55) rethrows publish failures, so a failed publish
raises inside the router; webhook posts
(`update_main_backend_with_passport` / `..._with_ticket`) swallow their
own errors and never raise — each attempt is recorded in the world. -/

structure DocumentPayload where
  traveller_id : Str
  traveller_name : Str
  document_id : Str
  file_url : Str
  document_type : Str
deriving DecidableEq, Repr

/-- Extracted data carried by a terminal event or webhook body. -/
inductive ExtractedData where
  | passportD : List (Str × Str) → ExtractedData
  | flightD : FlightData → ExtractedData
  | hotelD : HotelData → ExtractedData
deriving DecidableEq, Repr

/-- Verification-API result shape used by the router
(`process_passport_ocr` returns only `success` or `error`). -/
structure PassportOCRResult where
  status : OcrStatus
  data : Option (List (Str × Str)) := none
  error : Option Str := none
deriving DecidableEq, Repr

/-- One published ProgressEvent (the JSON payload minus the timestamp). -/
structure ProgressEvent where
  order_id : Str
  traveller_id : Str
  traveller_name : Str
  document_id : Str
  document_type : Str
  status : Str
  extracted_data : Option ExtractedData := none
  error : Option Str := none
deriving DecidableEq, Repr

/-- One webhook POST to `<main backend>/order/{order_id}/ocr-results`. -/
structure WebhookCall where
  traveller_id : Str
  ticket_type : Str
  document_id : Str
  back_document_id : Option Str := none
  ocr_status_completed : Bool
  mapped_to_traveller_id : Option Str := none
deriving DecidableEq, Repr

/-- Environment oracle: OCR outcomes per file URL and the fate of each
successive publish attempt. -/
structure Oracle where
  passport_ocr : Str → Str → Except Str PassportOCRResult
  flight_ocr : Str → Except Str FlightOCRResult
  hotel_ocr : Str → Except Str HotelOCRResult
  publish_ok : ℕ → Bool

/-- Observable state of one batch run: number of publish attempts so far,
successfully published events, webhook attempts. -/
structure World where
  pubCount : ℕ := 0
  events : List ProgressEvent := []
  webhooks : List WebhookCall := []
deriving DecidableEq, Repr

/-- Error message attributed to a rejected Redis publish (the router only
forwards `error.message`, whose concrete text the model fixes). -/
def pubFailMsg : Str := "Redis publish failed".data

/-- `publish_progress`: on success the event is delivered; on failure
`publish_to_redis` rethrows, so the caller sees an exception
(`Except.error` carrying the world, with no event delivered). -/
def publish_progress (O : Oracle) (e : ProgressEvent) (w : World) :
    Except World World :=
  if O.publish_ok w.pubCount then
    Except.ok { w with pubCount := w.pubCount + 1, events := w.events ++ [e] }
  else
    Except.error { w with pubCount := w.pubCount + 1 }

structure PassportPair where
  front : Option DocumentPayload := none
  back : Option DocumentPayload := none
deriving DecidableEq, Repr

/-- `passport_docs.set(...)` on an insertion-ordered map (JavaScript
`Map` iteration order). -/
def assocUpdate (l : List (Str × PassportPair)) (k : Str)
    (f : PassportPair → PassportPair) : List (Str × PassportPair) :=
  match l with
  | [] => [(k, f {})]
  | (k2, v) :: rest =>
    if k2 = k then (k2, f v) :: rest else (k2, v) :: assocUpdate rest k f

/-- One iteration of the grouping loop of `process_documents_async`. -/
def group_step
    (acc : List (Str × PassportPair) × List DocumentPayload
      × List DocumentPayload) (doc : DocumentPayload) :
    List (Str × PassportPair) × List DocumentPayload
      × List DocumentPayload :=
  let passport_docs := acc.1
  let flight_docs := acc.2.1
  let hotel_docs := acc.2.2
  if doc.document_type = "passport_front".data
      ∨ doc.document_type = "passport_back".data then
    let upd := fun (pr : PassportPair) =>
      if doc.document_type = "passport_front".data then
        { pr with front := some doc }
      else { pr with back := some doc }
    (assocUpdate passport_docs doc.traveller_id upd, flight_docs,
      hotel_docs)
  else if doc.document_type = "flight".data then
    (passport_docs, flight_docs ++ [doc], hotel_docs)
  else if doc.document_type = "hotel".data then
    (passport_docs, flight_docs, hotel_docs ++ [doc])
  else acc

/-- The grouping loop of `process_documents_async`: passport sides are
bucketed per traveller, flight and hotel documents are collected in
order; any other `document_type` is ignored. -/
def group_documents (documents : List DocumentPayload) :
    List (Str × PassportPair) × List DocumentPayload × List DocumentPayload :=
  documents.foldl group_step ([], [], [])

/-- `passport_docs.get(tid)` on the insertion-ordered association list. -/
def pairLookup (l : List (Str × PassportPair)) (k : Str) :
    Option PassportPair :=
  (l.find? (fun p => p.1 = k)).map (·.2)

/-- `documents.map(d => ({traveller_id, traveller_name}))`. -/
def all_travellers (documents : List DocumentPayload) : List TravellerInfo :=
  documents.map (fun d => ⟨d.traveller_id, d.traveller_name⟩)

/-- The shared `catch` of each unit loop body: publish a `failed` event
carrying the error message; a failure of that publish rethrows and aborts
the batch. -/
def unit_catch (O : Oracle) (order_id tid tname doc_id dtype : Str)
    (msg : Str) (w : World) : Except World World :=
  publish_progress O
    { order_id := order_id, traveller_id := tid, traveller_name := tname,
      document_id := doc_id, document_type := dtype,
      status := "failed".data, error := some msg } w

/-- One iteration of the passport loop (pairs missing a side are skipped
inside the loop). -/
def run_passport_unit (O : Oracle) (order_id : Str)
    (entry : Str × PassportPair) (w : World) : Except World World :=
  let tid := entry.1
  let pair := entry.2
  match pair.front, pair.back with
  | some front, some back =>
    let traveller_name := front.traveller_name
    let onErr := fun msg w1 => unit_catch O order_id tid traveller_name
      front.document_id "passport".data msg w1
    match publish_progress O
        { order_id := order_id, traveller_id := tid,
          traveller_name := traveller_name,
          document_id := front.document_id,
          document_type := "passport".data,
          status := "processing".data } w with
    | .error w1 => onErr pubFailMsg w1
    | .ok w1 =>
      match O.passport_ocr front.file_url back.file_url with
      | .error msg => onErr msg w1
      | .ok passport_result =>
        match publish_progress O
            { order_id := order_id, traveller_id := tid,
              traveller_name := traveller_name,
              document_id := front.document_id,
              document_type := "passport".data,
              status := if passport_result.status = .success
                then "mapped".data else "failed".data,
              extracted_data := passport_result.data.map .passportD,
              error := passport_result.error } w1 with
        | .error w2 => onErr pubFailMsg w2
        | .ok w2 =>
          .ok { w2 with webhooks := w2.webhooks ++
            [{ traveller_id := tid, ticket_type := "passport".data,
               document_id := front.document_id,
               back_document_id := some back.document_id,
               ocr_status_completed :=
                 passport_result.status = .success }] }
  | _, _ => .ok w

/-- One iteration of the flight loop. -/
def run_flight_unit (O : Oracle) (order_id : Str)
    (documents : List DocumentPayload) (doc : DocumentPayload)
    (w : World) : Except World World :=
  let onErr := fun msg w1 => unit_catch O order_id doc.traveller_id
    doc.traveller_name doc.document_id "flight".data msg w1
  match publish_progress O
      { order_id := order_id, traveller_id := doc.traveller_id,
        traveller_name := doc.traveller_name,
        document_id := doc.document_id, document_type := "flight".data,
        status := "processing".data } w with
  | .error w1 => onErr pubFailMsg w1
  | .ok w1 =>
    match O.flight_ocr doc.file_url with
    | .error msg => onErr msg w1
    | .ok flight_result =>
      match flight_result.status, flight_result.data with
      | .success, some d =>
        let travellers := all_travellers documents
        let mapped_traveller_id :=
          match map_ticket_to_passenger d.passenger_name travellers with
          | some id => if id = [] then doc.traveller_id else id
          | none => doc.traveller_id
        let tname :=
          match travellers.find?
              (fun t => t.traveller_id = mapped_traveller_id) with
          | some t => if t.traveller_name = [] then doc.traveller_name
              else t.traveller_name
          | none => doc.traveller_name
        match publish_progress O
            { order_id := order_id, traveller_id := mapped_traveller_id,
              traveller_name := tname, document_id := doc.document_id,
              document_type := "flight".data, status := "mapped".data,
              extracted_data := some (.flightD d) } w1 with
        | .error w2 => onErr pubFailMsg w2
        | .ok w2 =>
          .ok { w2 with webhooks := w2.webhooks ++
            [{ traveller_id := mapped_traveller_id,
               ticket_type := "flight".data,
               document_id := doc.document_id,
               ocr_status_completed := flight_result.status = .success,
               mapped_to_traveller_id := some mapped_traveller_id }] }
      | _, _ =>
        match publish_progress O
            { order_id := order_id, traveller_id := doc.traveller_id,
              traveller_name := doc.traveller_name,
              document_id := doc.document_id,
              document_type := "flight".data, status := "failed".data,
              error := flight_result.error } w1 with
        | .error w2 => onErr pubFailMsg w2
        | .ok w2 => .ok w2

/-- One iteration of the hotel loop (the source duplicates the flight
loop with the hotel service and `guest_name`). -/
def run_hotel_unit (O : Oracle) (order_id : Str)
    (documents : List DocumentPayload) (doc : DocumentPayload)
    (w : World) : Except World World :=
  let onErr := fun msg w1 => unit_catch O order_id doc.traveller_id
    doc.traveller_name doc.document_id "hotel".data msg w1
  match publish_progress O
      { order_id := order_id, traveller_id := doc.traveller_id,
        traveller_name := doc.traveller_name,
        document_id := doc.document_id, document_type := "hotel".data,
        status := "processing".data } w with
  | .error w1 => onErr pubFailMsg w1
  | .ok w1 =>
    match O.hotel_ocr doc.file_url with
    | .error msg => onErr msg w1
    | .ok hotel_result =>
      match hotel_result.status, hotel_result.data with
      | .success, some d =>
        let travellers := all_travellers documents
        let mapped_traveller_id :=
          match map_ticket_to_passenger d.guest_name travellers with
          | some id => if id = [] then doc.traveller_id else id
          | none => doc.traveller_id
        let tname :=
          match travellers.find?
              (fun t => t.traveller_id = mapped_traveller_id) with
          | some t => if t.traveller_name = [] then doc.traveller_name
              else t.traveller_name
          | none => doc.traveller_name
        match publish_progress O
            { order_id := order_id, traveller_id := mapped_traveller_id,
              traveller_name := tname, document_id := doc.document_id,
              document_type := "hotel".data, status := "mapped".data,
              extracted_data := some (.hotelD d) } w1 with
        | .error w2 => onErr pubFailMsg w2
        | .ok w2 =>
          .ok { w2 with webhooks := w2.webhooks ++
            [{ traveller_id := mapped_traveller_id,
               ticket_type := "hotel".data,
               document_id := doc.document_id,
               ocr_status_completed := hotel_result.status = .success,
               mapped_to_traveller_id := some mapped_traveller_id }] }
      | _, _ =>
        match publish_progress O
            { order_id := order_id, traveller_id := doc.traveller_id,
              traveller_name := doc.traveller_name,
              document_id := doc.document_id,
              document_type := "hotel".data, status := "failed".data,
              error := hotel_result.error } w1 with
        | .error w2 => onErr pubFailMsg w2
        | .ok w2 => .ok w2

/-- Sequential unit processing: an exception escaping one unit's `catch`
aborts the remaining iterations (and is rethrown by the outer `catch` of
`process_documents_async`). -/
def run_units {α : Type} (f : α → World → Except World World) :
    List α → World → Except World World
  | [], w => .ok w
  | x :: rest, w =>
    match f x w with
    | .ok w2 => run_units f rest w2
    | .error w2 => .error w2

/-- `process_documents_async` (hotel.service.ts / process.router.ts lines
342-578): group, then run the passport, flight and hotel loops in
order. -/
def process_documents_async (O : Oracle) (order_id : Str)
    (documents : List DocumentPayload) : Except World World :=
  let g := group_documents documents
  match run_units (run_passport_unit O order_id) g.1 {} with
  | .error w => .error w
  | .ok w1 =>
    match run_units (run_flight_unit O order_id documents) g.2.1 w1 with
    | .error w => .error w
    | .ok w2 => run_units (run_hotel_unit O order_id documents) g.2.2 w2

/-- ProcessingUnits derived from a batch: complete passport pairs plus
every flight and hotel document. -/
def unit_count (documents : List DocumentPayload) : ℕ :=
  let g := group_documents documents
  (g.1.filter (fun pr => pr.2.front ≠ none ∧ pr.2.back ≠ none)).length
    + g.2.1.length + g.2.2.length

/-- Terminal events of a run: status `mapped` or `failed`. -/
def terminal_events (w : World) : List ProgressEvent :=
  w.events.filter
    (fun e => e.status = "mapped".data ∨ e.status = "failed".data)

/-- Every space in `s` is immediately followed by a non-space (no double
space, no trailing space).  Holds for collapsed strings. -/
def spacesOk : Str → Bool
  | [] => true
  | [c] => !(c = ' ')
  | c :: d :: rest => !(c = ' ' && d = ' ') && spacesOk (d :: rest)

/-- The last character (if any) is not whitespace. -/
def noTrailWs : Str → Bool
  | [] => true
  | [c] => !isWs c
  | _ :: d :: rest => noTrailWs (d :: rest)

/-- Keyword-hit count of a text against a keyword list, written from the
spec's wording ("count matches of a fixed domain keyword set against the
lower-cased text"). -/
def keyword_hits (keywords : List Str) (text : Str) : ℕ :=
  (keywords.filter (fun k => jsIncludes (jsToLower text) k)).length

set_option maxRecDepth 1000000

/-- The spec's C7 scenario text: the eight quoted fragments in their
stated document order. -/
def c7_scenario_text : Str :=
  ("PNR: SISCPF\n6E 1402\n21 Apr 2025 06:20 hrs\n23 Apr 2025 21:55 hrs\n"
    ++ "BOM - Chhatrapati Shivaji Maharaj International Airport\n"
    ++ "AUH - Abu Dhabi International Airport").data

/-- All date strings collected by `extract_flight_data`: every match of
the month-name pattern first, then every match of the numeric pattern,
each group in document order. -/
def flight_dates_found (text : Str) : List Str :=
  (jsMatchAll (flight_date_pattern1 (text.length + 1)) text).map (·.matched)
    ++ (jsMatchAll flight_date_pattern2 text).map (·.matched)

/-- C8 counterexample text: a numeric date strictly before a
month-name date. -/
def c8_text : Str := "1/2/2025 3 Apr 2025".data

/-- The traveller name attached to a mapped ticket event:
`all_travellers.find(...)?.traveller_name || doc.traveller_name`. -/
def fallback_name (docs : List DocumentPayload) (d : DocumentPayload)
    (tidv : Str) : Str :=
  match (all_travellers docs).find? (fun t => t.traveller_id = tidv) with
  | some t => if t.traveller_name = [] then d.traveller_name
      else t.traveller_name
  | none => d.traveller_name

/-- Number of terminal (`mapped` or `failed`) events in an event list. -/
def tCount (es : List ProgressEvent) : ℕ :=
  (es.filter
    (fun e => e.status = "mapped".data ∨ e.status = "failed".data)).length

/-- Fixture oracle: every OCR call reports `status: 'error'` (the
services catch their internal failures), every publish succeeds. -/
def errOracle : Oracle where
  passport_ocr := fun _ _ => .ok { status := .error, error := some "boom".data }
  flight_ocr := fun _ => .ok { status := .error, error := some "boom".data }
  hotel_ocr := fun _ => .ok { status := .error, error := some "boom".data }
  publish_ok := fun _ => true

/-- Fixture oracle: OCR as in `errOracle`, but every Redis publish
fails (and `publish_to_redis` rethrows). -/
def noPublishOracle : Oracle where
  passport_ocr := errOracle.passport_ocr
  flight_ocr := errOracle.flight_ocr
  hotel_ocr := errOracle.hotel_ocr
  publish_ok := fun _ => false

/-- Fixture oracle: flight/hotel OCR succeeds but extracts no
passenger/guest name, so the Identity Matcher returns `none`. -/
def okNoNameOracle : Oracle where
  passport_ocr := fun _ _ => .ok { status := .success, data := some [] }
  flight_ocr := fun _ => .ok { status := .success, data := some {} }
  hotel_ocr := fun _ => .ok { status := .success, data := some {} }
  publish_ok := fun _ => true

def flightDoc1 : DocumentPayload :=
  ⟨"t1".data, "Tr One".data, "docF1".data, "urlF1".data, "flight".data⟩

def flightDoc2 : DocumentPayload :=
  ⟨"t2".data, "Tr Two".data, "docF2".data, "urlF2".data, "flight".data⟩

def hotelDoc1 : DocumentPayload :=
  ⟨"t1".data, "Tr One".data, "docH1".data, "urlH1".data, "hotel".data⟩

def passportFrontDoc1 : DocumentPayload :=
  ⟨"t1".data, "Tr One".data, "docP1f".data, "urlP1f".data,
    "passport_front".data⟩

/-! ## Theorems -/

theorem jsStartsWith_nil (s : Str) : jsStartsWith s [] = true := by
  cases s <;> rfl

theorem jsIncludes_nil (s : Str) : jsIncludes s [] = true := by
  induction s with
  | nil => rfl
  | cons c t ih => simp [jsIncludes, jsStartsWith_nil]

theorem noTrailWs_cons (a : Char) (l : Str) :
    noTrailWs (a :: l) = if l = [] then !isWs a else noTrailWs l := by
  cases l <;> simp [noTrailWs]

theorem noTrailWs_append_singleton (l : Str) (c : Char) :
    noTrailWs (l ++ [c]) = !isWs c := by
  induction l with
  | nil => rfl
  | cons a t ih =>
    rw [List.cons_append, noTrailWs_cons, if_neg (by simp), ih]

theorem noTrailWs_reverse_cons (c : Char) (t : Str) :
    noTrailWs ((c :: t).reverse) = !isWs c := by
  simp [List.reverse_cons, noTrailWs_append_singleton]

theorem dropWhile_head_not (p : Char → Bool) (l : Str) (c : Char) (t : Str)
    (h : l.dropWhile p = c :: t) : p c = false := by
  induction l with
  | nil => simp [List.dropWhile] at h
  | cons a r ih =>
    rw [List.dropWhile_cons] at h
    by_cases ha : p a = true
    · exact ih (by simpa [ha] using h)
    · rw [if_neg ha] at h
      injection h with h1 _
      subst h1
      simpa using ha

theorem collapse_true_head (s : Str) :
    collapseWsAux true s = []
      ∨ ∃ c t, collapseWsAux true s = c :: t ∧ isWs c = false := by
  induction s with
  | nil => exact Or.inl rfl
  | cons a r ih =>
    by_cases ha : isWs a = true
    · simpa [collapseWsAux, ha] using ih
    · exact Or.inr ⟨a, collapseWsAux false r,
        by simp [collapseWsAux, ha], by simpa using ha⟩

theorem collapse_true_ne_nil (s : Str) (h : ∃ d ∈ s, isWs d = false) :
    collapseWsAux true s ≠ [] := by
  induction s with
  | nil => simp at h
  | cons a r ih =>
    by_cases ha : isWs a = true
    · have : ∃ d ∈ r, isWs d = false := by
        rcases h with ⟨d, hd, hdw⟩
        rcases List.mem_cons.mp hd with rfl | hdr
        · exact absurd ha (by simp [hdw])
        · exact ⟨d, hdr, hdw⟩
      simpa [collapseWsAux, ha] using ih this
    · simp [collapseWsAux, ha]

theorem noTrail_mem_not_ws (s : Str) (hs : s ≠ []) (h : noTrailWs s = true) :
    ∃ d ∈ s, isWs d = false := by
  induction s with
  | nil => exact absurd rfl hs
  | cons a r ih =>
    cases hr : r with
    | nil =>
      subst hr
      exact ⟨a, by simp, by simpa [noTrailWs] using h⟩
    | cons b u =>
      have h2 : noTrailWs r = true := by
        rw [noTrailWs_cons, if_neg (by simp [hr])] at h
        exact h
      rcases ih (by simp [hr]) h2 with ⟨d, hd, hdw⟩
      exact ⟨d, List.mem_cons_of_mem a (hr ▸ hd), hdw⟩

theorem space_is_ws : isWs ' ' = true := by decide

theorem not_ws_ne_space {a : Char} (ha : ¬ isWs a = true) : ¬ (a = ' ') :=
  fun e => ha (e ▸ space_is_ws)

theorem spacesOk_cons_nonspace (a : Char) (out : Str) (ha : ¬ (a = ' '))
    (h : spacesOk out = true) : spacesOk (a :: out) = true := by
  cases out <;> simp [spacesOk, ha, h]

theorem spacesOk_collapse (s : Str) (h : noTrailWs s = true) :
    ∀ b : Bool, spacesOk (collapseWsAux b s) = true := by
  induction s with
  | nil => intro b; rfl
  | cons a r ih =>
    intro b
    by_cases ha : isWs a = true
    · have hr : r ≠ [] := by
        intro e
        subst e
        simp [noTrailWs, ha] at h
      have hnr : noTrailWs r = true := by
        rw [noTrailWs_cons, if_neg hr] at h
        exact h
      cases b with
      | true => simpa [collapseWsAux, ha] using ih hnr true
      | false =>
        have hne := collapse_true_ne_nil r (noTrail_mem_not_ws r hr hnr)
        rcases collapse_true_head r with h0 | ⟨c, t, hct, hcw⟩
        · exact absurd h0 hne
        · have hok := ih hnr true
          rw [hct] at hok
          have hcs : ¬ (c = ' ') := not_ws_ne_space (by simp [hcw])
          simp [collapseWsAux, ha, hct, spacesOk, hcs, hok]
    · have hnr : r = [] ∨ noTrailWs r = true := by
        cases hr : r with
        | nil => exact Or.inl rfl
        | cons b u =>
          rw [noTrailWs_cons, if_neg (by simp [hr])] at h
          exact Or.inr (hr ▸ h)
      have has : ¬ (a = ' ') := not_ws_ne_space ha
      rcases hnr with rfl | hnr
      · simp [collapseWsAux, ha, spacesOk, has]
      · simpa [collapseWsAux, ha] using
          spacesOk_cons_nonspace a _ has (ih hnr false)

theorem split_no_nil : ∀ (s acc : Str),
    spacesOk s = true → (acc = [] → s ≠ [] ∧ s.head? ≠ some ' ') →
    [] ∉ splitOnSpaceAux acc s := by
  intro s
  induction s with
  | nil =>
    intro acc _ hacc
    have : acc ≠ [] := fun e => (hacc e).1 rfl
    simp [splitOnSpaceAux, this]
  | cons c r ih =>
    intro acc hok hacc
    by_cases hc : c = ' '
    · subst hc
      have haccne : acc ≠ [] := by
        intro e
        exact (hacc e).2 rfl
      obtain ⟨d, u, rfl⟩ : ∃ d u, r = d :: u := by
        cases r with
        | nil => simp [spacesOk] at hok
        | cons d u => exact ⟨d, u, rfl⟩
      have hdu : ¬ (d = ' ') ∧ spacesOk (d :: u) = true := by
        simpa [spacesOk] using hok
      have := ih [] hdu.2 (fun _ => ⟨by simp, by simpa using hdu.1⟩)
      simpa [splitOnSpaceAux, haccne] using this
    · have hokr : spacesOk r = true := by
        cases r with
        | nil => rfl
        | cons d u => exact (by simpa [spacesOk] using hok : _ ∧ _).2
      have := ih (c :: acc) hokr (by simp)
      simpa [splitOnSpaceAux, hc] using this

theorem splitOnSpaceAux_ne_nil (s acc : Str) : splitOnSpaceAux acc s ≠ [] := by
  induction s generalizing acc with
  | nil => simp [splitOnSpaceAux]
  | cons c r ih =>
    by_cases hc : c = ' ' <;> simp [splitOnSpaceAux, hc, ih]

theorem noTrailWs_jsTrim (s : Str) : noTrailWs (jsTrim s) = true := by
  unfold jsTrim
  cases hx : (s.dropWhile isWs).reverse.dropWhile isWs with
  | nil => rfl
  | cons c t =>
    rw [noTrailWs_reverse_cons]
    simp [dropWhile_head_not isWs _ c t hx]

theorem spacesOk_normalize (s : Str) : spacesOk (normalize s) = true :=
  spacesOk_collapse _ (noTrailWs_jsTrim _) false

theorem dropWhile_eq_append (p : Char → Bool) (l : Str) :
    ∃ q, l = q ++ l.dropWhile p := by
  induction l with
  | nil => exact ⟨[], rfl⟩
  | cons a r ih =>
    by_cases ha : p a = true
    · rcases ih with ⟨q, hq⟩
      exact ⟨a :: q, by simp [List.dropWhile_cons, ha, ← hq]⟩
    · exact ⟨[], by simp [List.dropWhile_cons, ha]⟩

/-- The head of a trimmed string, if any, is not whitespace (the trimmed
string is a prefix of `dropWhile isWs s`). -/
theorem jsTrim_head_not_ws (s : Str) (c : Char) (t : Str)
    (h : jsTrim s = c :: t) : isWs c = false := by
  unfold jsTrim at h
  rcases dropWhile_eq_append isWs (s.dropWhile isWs).reverse with ⟨q, hq⟩
  have hA : s.dropWhile isWs
      = ((s.dropWhile isWs).reverse.dropWhile isWs).reverse ++ q.reverse := by
    have h2 := congrArg List.reverse hq
    rwa [List.reverse_reverse, List.reverse_append] at h2
  rw [h] at hA
  exact dropWhile_head_not isWs s c (t ++ q.reverse) (by simpa using hA)

theorem normalize_head_not_space (a : Str) :
    ∀ c t, normalize a = c :: t → ¬ (c = ' ') := by
  intro c t h
  unfold normalize collapseWs at h
  cases hu : jsTrim (jsToLower a) with
  | nil =>
    rw [hu] at h
    simp [collapseWsAux] at h
  | cons d u =>
    rw [hu] at h
    have hd : isWs d = false := jsTrim_head_not_ws _ d u hu
    rw [show collapseWsAux false (d :: u) = d :: collapseWsAux false u from by
      simp [collapseWsAux, hd]] at h
    injection h with h1 _
    subst h1
    exact not_ws_ne_space (by simp [hd])

theorem normalize_split_no_nil (a : Str) (h : normalize a ≠ []) :
    [] ∉ splitOnSpace (normalize a) := by
  apply split_no_nil _ [] (spacesOk_normalize a)
  intro _
  refine ⟨h, ?_⟩
  cases hn : normalize a with
  | nil => exact absurd hn h
  | cons c t =>
    simpa using normalize_head_not_space a c t hn

/-- C4: the code's scoring function agrees with the spec's reference
definition on every pair of names.  The interesting branch is the token
ratio: after the containment test fails, both normalized names are
non-empty and collapsed, so splitting on single spaces yields no empty
tokens and the code's `split(' ')` pieces are exactly the spec's
whitespace-delimited tokens; the spec's zero-token guard is vacuous
there. -/
theorem C4_score_equals_reference (a b : Str) :
    fuzzy_match_name a b = score_spec a b := by
  unfold fuzzy_match_name score_spec
  by_cases h1 : normalize a = normalize b
  · simp [h1]
  · rw [if_neg h1, if_neg h1]
    by_cases h2 : (jsIncludes (normalize a) (normalize b)
        || jsIncludes (normalize b) (normalize a)) = true
    · rw [if_pos h2, if_pos h2]
    · rw [if_neg h2, if_neg h2]
      have hna : normalize a ≠ [] := by
        intro e
        exact h2 (by rw [e]; simp [jsIncludes_nil])
      have hnb : normalize b ≠ [] := by
        intro e
        exact h2 (by rw [e]; simp [jsIncludes_nil])
      have t1 : specTokens (normalize a) = splitOnSpace (normalize a) := by
        unfold specTokens
        refine List.filter_eq_self.mpr (fun w hw => ?_)
        have := normalize_split_no_nil a hna
        simp only [decide_eq_true_eq]
        intro e
        exact this (e ▸ hw)
      have t2 : specTokens (normalize b) = splitOnSpace (normalize b) := by
        unfold specTokens
        refine List.filter_eq_self.mpr (fun w hw => ?_)
        have := normalize_split_no_nil b hnb
        simp only [decide_eq_true_eq]
        intro e
        exact this (e ▸ hw)
      rw [t1, t2]
      have l1 : (splitOnSpace (normalize a)).length ≠ 0 := by
        simpa [List.length_eq_zero] using splitOnSpaceAux_ne_nil _ []
      have l2 : (splitOnSpace (normalize b)).length ≠ 0 := by
        simpa [List.length_eq_zero] using splitOnSpaceAux_ne_nil _ []
      rw [if_neg (by simp [Nat.max_eq_zero_iff, l1, l2]),
        if_neg (by simp [l1, l2])]
      simp [Nat.cast_max]

theorem max_score_nil (name : Str) : max_score name [] = 0 := rfl

theorem max_score_cons (name : Str) (t : TravellerInfo)
    (ts : List TravellerInfo) :
    max_score name (t :: ts)
      = max (fuzzy_match_name name t.traveller_name) (max_score name ts) :=
  rfl

theorem mtp_step_some (name : Str) (b : Str × ℚ) (t : TravellerInfo)
    (hb : (0.6 : ℚ) ≤ b.2) :
    mtp_step name (some b) t
      = if b.2 < fuzzy_match_name name t.traveller_name then
          some (t.traveller_id, fuzzy_match_name name t.traveller_name)
        else some b := by
  unfold mtp_step
  by_cases hlt : b.2 < fuzzy_match_name name t.traveller_name
  · have h6 : (0.6 : ℚ) ≤ fuzzy_match_name name t.traveller_name :=
      le_trans hb (le_of_lt hlt)
    simp [hlt, h6]
  · simp [hlt]

theorem mtp_step_none (name : Str) (t : TravellerInfo) :
    mtp_step name none t
      = if (0.6 : ℚ) ≤ fuzzy_match_name name t.traveller_name then
          some (t.traveller_id, fuzzy_match_name name t.traveller_name)
        else none := by
  unfold mtp_step
  by_cases h6 : (0.6 : ℚ) ≤ fuzzy_match_name name t.traveller_name <;>
    simp [h6]

theorem foldl_mtp_some (name : Str) :
    ∀ (ts : List TravellerInfo) (b : Str × ℚ), (0.6 : ℚ) ≤ b.2 →
    ts.foldl (mtp_step name) (some b)
      = if max_score name ts ≤ b.2 then some b
        else (ts.find? (fun t =>
            fuzzy_match_name name t.traveller_name = max_score name ts)).map
          (fun t => (t.traveller_id, max_score name ts)) := by
  intro ts
  induction ts with
  | nil =>
    intro b hb
    rw [max_score_nil, if_pos (le_trans (by norm_num) hb)]
    rfl
  | cons t ts ih =>
    intro b hb
    rw [List.foldl_cons, mtp_step_some name b t hb, max_score_cons]
    by_cases hlt : b.2 < fuzzy_match_name name t.traveller_name
    · rw [if_pos hlt, ih (t.traveller_id, fuzzy_match_name name t.traveller_name)
        (le_trans hb (le_of_lt hlt))]
      by_cases hts : max_score name ts ≤ fuzzy_match_name name t.traveller_name
      · rw [if_pos hts, if_neg (by
          rw [max_eq_left hts]
          exact not_le.mpr hlt)]
        rw [List.find?_cons_of_pos _ (by simp [max_eq_left hts])]
        simp [max_eq_left hts]
      · have hlt2 : fuzzy_match_name name t.traveller_name < max_score name ts :=
          not_le.mp hts
        rw [if_neg hts, if_neg (by
          rw [max_eq_right (le_of_lt hlt2)]
          exact not_le.mpr (lt_trans hlt hlt2))]
        rw [List.find?_cons_of_neg _ (by simp [max_eq_right (le_of_lt hlt2), ne_of_lt hlt2]),
          max_eq_right (le_of_lt hlt2)]
    · have hsb : fuzzy_match_name name t.traveller_name ≤ b.2 := not_lt.mp hlt
      rw [if_neg hlt, ih b hb]
      by_cases hts : max_score name ts ≤ b.2
      · rw [if_pos hts, if_pos (by simp [hsb, hts])]
      · have hbl : b.2 < max_score name ts := not_le.mp hts
        have hsl : fuzzy_match_name name t.traveller_name < max_score name ts :=
          lt_of_le_of_lt hsb hbl
        rw [if_neg hts, if_neg (by
          rw [max_eq_right (le_of_lt hsl)]
          exact hts)]
        rw [List.find?_cons_of_neg _ (by simp [max_eq_right (le_of_lt hsl), ne_of_lt hsl]),
          max_eq_right (le_of_lt hsl)]

theorem foldl_mtp_none (name : Str) :
    ∀ ts : List TravellerInfo,
    ts.foldl (mtp_step name) none
      = if (0.6 : ℚ) ≤ max_score name ts then
          (ts.find? (fun t =>
            fuzzy_match_name name t.traveller_name = max_score name ts)).map
            (fun t => (t.traveller_id, max_score name ts))
        else none := by
  intro ts
  induction ts with
  | nil =>
    rw [max_score_nil, if_neg (by norm_num)]
    rfl
  | cons t ts ih =>
    rw [List.foldl_cons, mtp_step_none, max_score_cons]
    by_cases h6 : (0.6 : ℚ) ≤ fuzzy_match_name name t.traveller_name
    · rw [if_pos h6,
        foldl_mtp_some name ts (t.traveller_id, fuzzy_match_name name t.traveller_name) h6]
      by_cases hts : max_score name ts ≤ fuzzy_match_name name t.traveller_name
      · rw [if_pos hts, if_pos (le_trans h6 (le_max_left _ _))]
        rw [List.find?_cons_of_pos _ (by simp [max_eq_left hts])]
        simp [max_eq_left hts]
      · have hlt2 : fuzzy_match_name name t.traveller_name < max_score name ts :=
          not_le.mp hts
        rw [if_neg hts, if_pos (le_trans h6 (le_max_left _ _))]
        rw [List.find?_cons_of_neg _ (by simp [max_eq_right (le_of_lt hlt2), ne_of_lt hlt2]),
          max_eq_right (le_of_lt hlt2)]
    · rw [if_neg h6, ih]
      by_cases hts : (0.6 : ℚ) ≤ max_score name ts
      · rw [if_pos hts, if_pos (le_trans hts (le_max_right _ _))]
        have hmax : max (fuzzy_match_name name t.traveller_name) (max_score name ts)
            = max_score name ts :=
          max_eq_right (le_trans (le_of_not_le h6) hts)
        rw [List.find?_cons_of_neg _ (by
          simp only [hmax, decide_eq_true_eq]
          intro e
          exact h6 (e ▸ hts)), hmax]
      · rw [if_neg hts, if_neg (by
          rw [not_le, max_lt_iff]
          exact ⟨not_le.mp h6, not_le.mp hts⟩)]

/-- C3: the Identity Matcher equals its spec: iterate travellers in given
order, return the earliest traveller achieving the maximal score provided
that score is at least 0.6 (a later traveller replaces the best only on a
strictly greater score, so exact ties keep the earliest); `none` when no
candidate reaches 0.6, when the extracted name is absent (JavaScript
`undefined` — and, equally falsy, the empty string), or when the
travellers list is empty. -/
theorem C3_matcher_equals_spec (extracted_name : Option Str)
    (travellers : List TravellerInfo) :
    map_ticket_to_passenger extracted_name travellers
      = matcher_spec extracted_name travellers := by
  cases extracted_name with
  | none => simp [map_ticket_to_passenger, matcher_spec]
  | some name =>
    by_cases hnm : name = []
    · subst hnm
      simp [map_ticket_to_passenger, matcher_spec]
    · by_cases hts : travellers = []
      · subst hts
        simp only [map_ticket_to_passenger, matcher_spec]
        rw [if_pos (by simp), if_neg hnm, max_score_nil,
          if_neg (by norm_num)]
      · simp only [map_ticket_to_passenger, matcher_spec]
        rw [if_neg (by simp [hnm, hts]), if_neg hnm]
        rw [foldl_mtp_none]
        by_cases h : (0.6 : ℚ) ≤ max_score name travellers
        · rw [if_pos h, if_pos h, Option.map_map]
          rfl
        · rw [if_neg h, if_neg h]
          rfl

theorem pairLookup_nil (k : Str) : pairLookup [] k = none := rfl

theorem pairLookup_cons (k3 : Str) (v : PassportPair)
    (rest : List (Str × PassportPair)) (k2 : Str) :
    pairLookup ((k3, v) :: rest) k2
      = if k3 = k2 then some v else pairLookup rest k2 := by
  by_cases h : k3 = k2
  · rw [if_pos h]
    unfold pairLookup
    rw [List.find?_cons_of_pos _ (by simp [h])]
    rfl
  · rw [if_neg h]
    unfold pairLookup
    rw [List.find?_cons_of_neg _ (by simp [h])]

theorem assocUpdate_nil (k : Str) (f : PassportPair → PassportPair) :
    assocUpdate [] k f = [(k, f {})] := rfl

theorem assocUpdate_cons (k3 : Str) (v : PassportPair)
    (rest : List (Str × PassportPair)) (k : Str)
    (f : PassportPair → PassportPair) :
    assocUpdate ((k3, v) :: rest) k f
      = if k3 = k then (k3, f v) :: rest
        else (k3, v) :: assocUpdate rest k f := rfl

theorem pairLookup_assocUpdate (l : List (Str × PassportPair)) (k k2 : Str)
    (f : PassportPair → PassportPair) :
    pairLookup (assocUpdate l k f) k2
      = if k2 = k then some (f ((pairLookup l k).getD {}))
        else pairLookup l k2 := by
  induction l with
  | nil =>
    rw [assocUpdate_nil, pairLookup_cons, pairLookup_nil]
    by_cases h : k2 = k
    · rw [if_pos h, if_pos h.symm, pairLookup_nil]
      rfl
    · rw [if_neg h, if_neg (fun e => h e.symm)]
  | cons p rest ih =>
    obtain ⟨k3, v⟩ := p
    rw [assocUpdate_cons]
    by_cases h3 : k3 = k
    · subst h3
      rw [if_pos rfl, pairLookup_cons, pairLookup_cons]
      by_cases h2 : k3 = k2
      · rw [if_pos h2, if_pos h2.symm, if_pos rfl]
        rfl
      · rw [if_neg h2, if_neg (fun e => h2 e.symm), pairLookup_cons,
          if_neg h2]
    · rw [if_neg h3, pairLookup_cons]
      by_cases h2 : k3 = k2
      · rw [if_pos h2, if_neg (fun e => h3 (h2.trans e)), pairLookup_cons,
          if_pos h2]
      · rw [if_neg h2, ih]
        simp [pairLookup_cons, h3, h2]

theorem group_step_presence
    (acc : List (Str × PassportPair) × List DocumentPayload
      × List DocumentPayload) (d : DocumentPayload) (tid : Str) :
    ((∃ pr, pairLookup (group_step acc d).1 tid = some pr ∧ pr.front ≠ none)
      ↔ ((∃ pr, pairLookup acc.1 tid = some pr ∧ pr.front ≠ none)
        ∨ (d.traveller_id = tid
          ∧ d.document_type = "passport_front".data)))
    ∧ ((∃ pr, pairLookup (group_step acc d).1 tid = some pr ∧ pr.back ≠ none)
      ↔ ((∃ pr, pairLookup acc.1 tid = some pr ∧ pr.back ≠ none)
        ∨ (d.traveller_id = tid
          ∧ d.document_type = "passport_back".data))) := by
  by_cases hp : d.document_type = "passport_front".data
      ∨ d.document_type = "passport_back".data
  · have hstep : (group_step acc d).1
        = assocUpdate acc.1 d.traveller_id (fun pr =>
            if d.document_type = "passport_front".data then
              { pr with front := some d }
            else { pr with back := some d }) := by
      simp only [group_step, if_pos hp]
    rw [hstep]
    by_cases htid : tid = d.traveller_id
    · subst htid
      rw [pairLookup_assocUpdate, if_pos rfl]
      by_cases hf : d.document_type = "passport_front".data
      · have hnb : ¬ d.document_type = "passport_back".data := by
          rw [hf]
          decide
        cases hl : pairLookup acc.1 d.traveller_id with
        | none => simp [hf, hl, hnb]
        | some pr => simp [hf, hl, hnb]
      · have hb : d.document_type = "passport_back".data := hp.resolve_left hf
        cases hl : pairLookup acc.1 d.traveller_id with
        | none => simp [hf, hb, hl]
        | some pr => simp [hf, hb, hl]
    · rw [pairLookup_assocUpdate, if_neg htid]
      have hne : d.traveller_id ≠ tid := fun e => htid e.symm
      simp [hne]
  · have hstep : (group_step acc d).1 = acc.1 := by
      push_neg at hp
      by_cases h1 : d.document_type = "flight".data <;>
        by_cases h2 : d.document_type = "hotel".data <;>
        simp [group_step, hp.1, hp.2, h1, h2]
    rw [hstep]
    push_neg at hp
    simp [hp.1, hp.2]

theorem group_fold_presence :
    ∀ (docs : List DocumentPayload)
    (acc : List (Str × PassportPair) × List DocumentPayload
      × List DocumentPayload) (tid : Str),
    ((∃ pr, pairLookup (docs.foldl group_step acc).1 tid = some pr
        ∧ pr.front ≠ none)
      ↔ ((∃ pr, pairLookup acc.1 tid = some pr ∧ pr.front ≠ none)
        ∨ ∃ d ∈ docs, d.traveller_id = tid
            ∧ d.document_type = "passport_front".data))
    ∧ ((∃ pr, pairLookup (docs.foldl group_step acc).1 tid = some pr
        ∧ pr.back ≠ none)
      ↔ ((∃ pr, pairLookup acc.1 tid = some pr ∧ pr.back ≠ none)
        ∨ ∃ d ∈ docs, d.traveller_id = tid
            ∧ d.document_type = "passport_back".data)) := by
  intro docs
  induction docs with
  | nil =>
    intro acc tid
    simp
  | cons d rest ih =>
    intro acc tid
    rw [List.foldl_cons]
    constructor
    · rw [(ih (group_step acc d) tid).1, (group_step_presence acc d tid).1]
      simp only [List.exists_mem_cons_iff]
      exact or_assoc
    · rw [(ih (group_step acc d) tid).2, (group_step_presence acc d tid).2]
      simp only [List.exists_mem_cons_iff]
      exact or_assoc

theorem group_fold_flights :
    ∀ (docs : List DocumentPayload)
    (acc : List (Str × PassportPair) × List DocumentPayload
      × List DocumentPayload),
    (docs.foldl group_step acc).2.1
      = acc.2.1 ++ docs.filter (fun d => d.document_type = "flight".data) := by
  intro docs
  induction docs with
  | nil =>
    intro acc
    simp
  | cons d rest ih =>
    intro acc
    rw [List.foldl_cons, ih (group_step acc d), List.filter_cons]
    by_cases hp : d.document_type = "passport_front".data
        ∨ d.document_type = "passport_back".data
    · have hnf : ¬ d.document_type = "flight".data := by
        rcases hp with h | h <;> rw [h] <;> decide
      simp [group_step, hp, hnf]
    · by_cases h1 : d.document_type = "flight".data
      · simp [group_step, hp, h1]
      · by_cases h2 : d.document_type = "hotel".data <;>
          simp [group_step, hp, h1, h2]

theorem group_fold_hotels :
    ∀ (docs : List DocumentPayload)
    (acc : List (Str × PassportPair) × List DocumentPayload
      × List DocumentPayload),
    (docs.foldl group_step acc).2.2
      = acc.2.2 ++ docs.filter (fun d => d.document_type = "hotel".data) := by
  intro docs
  induction docs with
  | nil =>
    intro acc
    simp
  | cons d rest ih =>
    intro acc
    rw [List.foldl_cons, ih (group_step acc d), List.filter_cons]
    by_cases hp : d.document_type = "passport_front".data
        ∨ d.document_type = "passport_back".data
    · have hnh : ¬ d.document_type = "hotel".data := by
        rcases hp with h | h <;> rw [h] <;> decide
      simp [group_step, hp, hnh]
    · by_cases h1 : d.document_type = "flight".data
      · have hnh : ¬ d.document_type = "hotel".data := by
          rw [h1]; decide
        simp [group_step, hp, h1, hnh]
      · by_cases h2 : d.document_type = "hotel".data <;>
          simp [group_step, hp, h1, h2]

/-- An incomplete passport pair is skipped inside the passport loop: no
event, no webhook, no error. -/
theorem run_passport_unit_skip (O : Oracle) (oid tid : Str)
    (pr : PassportPair) (w : World) (h : pr.front = none ∨ pr.back = none) :
    run_passport_unit O oid (tid, pr) w = .ok w := by
  rcases h with h | h <;>
    cases hf : pr.front <;> cases hb : pr.back <;>
    simp_all [run_passport_unit]

/-- C5: a PassportUnit exists for a traveller id iff the batch holds both
a `passport_front` and a `passport_back` document for that id; an
incomplete pair is silently skipped (no event, no error); every `flight`
and every `hotel` document becomes its own unit unconditionally, in
document order. -/
theorem C5_grouping (documents : List DocumentPayload) :
    (∀ tid : Str,
      (∃ pr, pairLookup (group_documents documents).1 tid = some pr
          ∧ pr.front ≠ none ∧ pr.back ≠ none)
        ↔ ((∃ d ∈ documents, d.traveller_id = tid
              ∧ d.document_type = "passport_front".data)
          ∧ (∃ d ∈ documents, d.traveller_id = tid
              ∧ d.document_type = "passport_back".data))) ∧
    (group_documents documents).2.1
      = documents.filter (fun d => d.document_type = "flight".data) ∧
    (group_documents documents).2.2
      = documents.filter (fun d => d.document_type = "hotel".data) ∧
    (∀ (O : Oracle) (oid tid : Str) (pr : PassportPair) (w : World),
      pr.front = none ∨ pr.back = none →
      run_passport_unit O oid (tid, pr) w = .ok w) := by
  refine ⟨fun tid => ?_, ?_, ?_, fun O oid tid pr w h =>
    run_passport_unit_skip O oid tid pr w h⟩
  · have hf := (group_fold_presence documents ([], [], []) tid).1
    have hb := (group_fold_presence documents ([], [], []) tid).2
    simp only [pairLookup_nil] at hf hb
    have hdf : ¬ ∃ pr : PassportPair,
        (none : Option PassportPair) = some pr ∧ pr.front ≠ none := by
      rintro ⟨pr, h, _⟩
      cases h
    have hdb : ¬ ∃ pr : PassportPair,
        (none : Option PassportPair) = some pr ∧ pr.back ≠ none := by
      rintro ⟨pr, h, _⟩
      cases h
    have hf2 := hf.trans (or_iff_right hdf)
    have hb2 := hb.trans (or_iff_right hdb)
    unfold group_documents
    constructor
    · rintro ⟨pr, hl, hfr, hba⟩
      exact ⟨hf2.mp ⟨pr, hl, hfr⟩, hb2.mp ⟨pr, hl, hba⟩⟩
    · rintro ⟨h1, h2⟩
      rcases hf2.mpr h1 with ⟨pr, hl, hfr⟩
      rcases hb2.mpr h2 with ⟨pr2, hl2, hba⟩
      rw [hl] at hl2
      injection hl2 with e
      exact ⟨pr, hl, hfr, e ▸ hba⟩
  · simpa using group_fold_flights documents ([], [], [])
  · simpa using group_fold_hotels documents ([], [], [])

/-- C5 witness: a batch holding only a lone passport front yields no
complete PassportUnit, and the passport loop body leaves the world
untouched for the incomplete pair. -/
theorem C5_grouping_witness :
    run_passport_unit errOracle "o1".data
        ("t1".data, { front := some passportFrontDoc1, back := none }) {}
      = .ok {}
    ∧ ¬ (∃ pr, pairLookup (group_documents [passportFrontDoc1]).1 "t1".data
          = some pr ∧ pr.front ≠ none ∧ pr.back ≠ none) :=
  ⟨(C5_grouping [passportFrontDoc1]).2.2.2 errOracle "o1".data "t1".data
      { front := some passportFrontDoc1, back := none } {} (Or.inr rfl),
   fun h => by
     rcases ((C5_grouping [passportFrontDoc1]).1 "t1".data).mp h with
       ⟨_, hback⟩
     rcases hback with ⟨d, hd, _, ht⟩
     rcases List.mem_singleton.mp hd
     exact absurd ht (by decide)⟩

theorem publish_ok_all (O : Oracle) (hpub : ∀ k, O.publish_ok k = true)
    (e : ProgressEvent) (w : World) :
    publish_progress O e w
      = .ok { pubCount := w.pubCount + 1, events := w.events ++ [e],
              webhooks := w.webhooks } := by
  simp [publish_progress, hpub]

theorem tCount_append (es fs : List ProgressEvent) :
    tCount (es ++ fs) = tCount es + tCount fs := by
  simp [tCount, List.filter_append]

theorem terminal_events_length (w : World) :
    (terminal_events w).length = tCount w.events := rfl

theorem run_flight_unit_ok (O : Oracle) (hpub : ∀ k, O.publish_ok k = true)
    (oid : Str) (docs : List DocumentPayload) (d : DocumentPayload)
    (w : World) :
    ∃ w', run_flight_unit O oid docs d w = .ok w'
      ∧ tCount w'.events = tCount w.events + 1 := by
  unfold run_flight_unit unit_catch
  simp only [publish_ok_all O hpub]
  cases O.flight_ocr d.file_url with
  | error msg =>
    exact ⟨_, rfl, by
      simp +decide [tCount_append, tCount, List.filter_cons, List.filter_nil]⟩
  | ok r =>
    dsimp only
    cases hs : r.status <;> cases hdata : r.data <;>
      exact ⟨_, rfl, by
        simp +decide [tCount_append, tCount, List.filter_cons,
          List.filter_nil]⟩

theorem run_hotel_unit_ok (O : Oracle) (hpub : ∀ k, O.publish_ok k = true)
    (oid : Str) (docs : List DocumentPayload) (d : DocumentPayload)
    (w : World) :
    ∃ w', run_hotel_unit O oid docs d w = .ok w'
      ∧ tCount w'.events = tCount w.events + 1 := by
  unfold run_hotel_unit unit_catch
  simp only [publish_ok_all O hpub]
  cases O.hotel_ocr d.file_url with
  | error msg =>
    exact ⟨_, rfl, by
      simp +decide [tCount_append, tCount, List.filter_cons, List.filter_nil]⟩
  | ok r =>
    dsimp only
    cases hs : r.status <;> cases hdata : r.data <;>
      exact ⟨_, rfl, by
        simp +decide [tCount_append, tCount, List.filter_cons,
          List.filter_nil]⟩

theorem run_passport_unit_ok (O : Oracle)
    (hpub : ∀ k, O.publish_ok k = true) (oid : Str)
    (entry : Str × PassportPair) (w : World) :
    ∃ w', run_passport_unit O oid entry w = .ok w'
      ∧ tCount w'.events = tCount w.events
        + (if entry.2.front ≠ none ∧ entry.2.back ≠ none then 1 else 0) := by
  obtain ⟨tid, pr⟩ := entry
  cases hf : pr.front with
  | none =>
    refine ⟨w, run_passport_unit_skip O oid tid pr w (Or.inl hf), ?_⟩
    simp [hf]
  | some front =>
    cases hb : pr.back with
    | none =>
      refine ⟨w, run_passport_unit_skip O oid tid pr w (Or.inr hb), ?_⟩
      simp [hb]
    | some back =>
      unfold run_passport_unit unit_catch
      dsimp only
      rw [hf, hb]
      simp only [publish_ok_all O hpub]
      cases O.passport_ocr front.file_url back.file_url with
      | error msg =>
        exact ⟨_, rfl, by
          simp +decide [tCount_append, tCount, List.filter_cons,
            List.filter_nil]⟩
      | ok r =>
        dsimp only
        by_cases hs : r.status = .success <;>
          exact ⟨_, rfl, by
            simp +decide [hs, tCount_append, tCount, List.filter_cons,
              List.filter_nil]⟩

theorem run_units_sum {α : Type} (f : α → World → Except World World)
    (cnt : α → ℕ)
    (hf : ∀ x w, ∃ w', f x w = .ok w'
      ∧ tCount w'.events = tCount w.events + cnt x) :
    ∀ (xs : List α) (w : World),
    ∃ w', run_units f xs w = .ok w'
      ∧ tCount w'.events = tCount w.events + (xs.map cnt).sum := by
  intro xs
  induction xs with
  | nil =>
    intro w
    exact ⟨w, rfl, by simp⟩
  | cons x rest ih =>
    intro w
    rcases hf x w with ⟨w1, hw1, hc1⟩
    rcases ih w1 with ⟨w2, hw2, hc2⟩
    refine ⟨w2, ?_, ?_⟩
    · unfold run_units
      rw [hw1]
      exact hw2
    · rw [hc2, hc1]
      simp [Nat.add_assoc, Nat.add_comm (cnt x)]

theorem sum_indicator (l : List (Str × PassportPair)) :
    (l.map (fun pr =>
      if pr.2.front ≠ none ∧ pr.2.back ≠ none then 1 else 0)).sum
      = (l.filter (fun pr => pr.2.front ≠ none ∧ pr.2.back ≠ none)).length := by
  induction l with
  | nil => rfl
  | cons p rest ih =>
    rw [List.map_cons, List.sum_cons, List.filter_cons]
    by_cases h : p.2.front ≠ none ∧ p.2.back ≠ none
    · simp [h, ih, Nat.add_comm]
    · simp [h, ih]

theorem sum_ones {α : Type} (l : List α) :
    (l.map (fun _ => 1)).sum = l.length := by
  induction l with
  | nil => rfl
  | cons x rest ih => simp [ih, Nat.add_comm]

/-- C1 (amended): when every progress publish succeeds, the orchestrator
drives every derived ProcessingUnit to a terminal state independently of
the other units' outcomes — whatever each unit's OCR result, including
rejected promises — the batch run completes (no abort), and exactly one
terminal ProgressEvent is emitted per unit: the total number of terminal
events equals the number of ProcessingUnits. -/
theorem C1_all_units_terminal (O : Oracle) (oid : Str)
    (documents : List DocumentPayload)
    (hpub : ∀ k, O.publish_ok k = true) :
    ∃ w, process_documents_async O oid documents = .ok w
      ∧ (terminal_events w).length = unit_count documents := by
  unfold process_documents_async unit_count
  rcases run_units_sum (run_passport_unit O oid)
      (fun pr => if pr.2.front ≠ none ∧ pr.2.back ≠ none then 1 else 0)
      (fun x w => run_passport_unit_ok O hpub oid x w)
      (group_documents documents).1 {} with ⟨w1, hw1, hc1⟩
  rcases run_units_sum (run_flight_unit O oid documents) (fun _ => 1)
      (fun x w => run_flight_unit_ok O hpub oid documents x w)
      (group_documents documents).2.1 w1 with ⟨w2, hw2, hc2⟩
  rcases run_units_sum (run_hotel_unit O oid documents) (fun _ => 1)
      (fun x w => run_hotel_unit_ok O hpub oid documents x w)
      (group_documents documents).2.2 w2 with ⟨w3, hw3, hc3⟩
  refine ⟨w3, ?_, ?_⟩
  · dsimp only
    rw [hw1]
    dsimp only
    rw [hw2]
    dsimp only
    exact hw3
  · rw [terminal_events_length, hc3, hc2, hc1]
    rw [sum_indicator, sum_ones, sum_ones]
    simp [tCount]

/-- C1 witness: a two-unit batch (one flight, one hotel) with failing
OCR and reliable publishes completes with exactly two terminal events. -/
theorem C1_all_units_terminal_witness :
    ∃ w, process_documents_async errOracle "o1".data [flightDoc1, hotelDoc1]
        = .ok w
      ∧ (terminal_events w).length = unit_count [flightDoc1, hotelDoc1] :=
  C1_all_units_terminal errOracle "o1".data [flightDoc1, hotelDoc1]
    (fun _ => rfl)

/-- C1 counterexample: with the rethrowing `publish_to_redis` of
redis.ts lines 46-55, a progress-publish failure inside the first unit's
catch handler aborts the batch: of two derived units, none reaches a
terminal event and the second is never processed, so the terminal-event
count (0) differs from the unit count (2). -/
theorem C1_publish_failure_aborts_batch :
    process_documents_async noPublishOracle "o1".data
        [flightDoc1, flightDoc2]
      = .error { pubCount := 2, events := [], webhooks := [] }
    ∧ unit_count [flightDoc1, flightDoc2] = 2
    ∧ (terminal_events { pubCount := 2, events := [], webhooks := [] }).length
      = 0 := by
  refine ⟨rfl, by decide, rfl⟩

/-- C2 (amended): a unit whose extraction returns `invalid` or `error`,
or whose pipeline raises, transitions to Failed: provided the publishes
succeed, the unit emits exactly its `processing` event plus one `failed`
event carrying the error message, returns control normally (the error is
not propagated to other units), and — the correction — the Result
Reporter is NOT invoked for failed flight or hotel units (their webhook
list is unchanged); only a passport unit with a non-success extraction
also posts a webhook, with a FAILED outcome. -/
theorem C2_failure_handling (O : Oracle) (oid : Str)
    (hpub : ∀ k, O.publish_ok k = true) :
    (∀ (docs : List DocumentPayload) (d : DocumentPayload) (w : World)
      (r : FlightOCRResult),
      O.flight_ocr d.file_url = .ok r →
      r.status = .invalid ∨ r.status = .error →
      run_flight_unit O oid docs d w = .ok
        { pubCount := w.pubCount + 2,
          events := w.events ++
            [ { order_id := oid, traveller_id := d.traveller_id,
                traveller_name := d.traveller_name,
                document_id := d.document_id,
                document_type := "flight".data,
                status := "processing".data },
              { order_id := oid, traveller_id := d.traveller_id,
                traveller_name := d.traveller_name,
                document_id := d.document_id,
                document_type := "flight".data,
                status := "failed".data, error := r.error } ],
          webhooks := w.webhooks }) ∧
    (∀ (docs : List DocumentPayload) (d : DocumentPayload) (w : World)
      (r : HotelOCRResult),
      O.hotel_ocr d.file_url = .ok r →
      r.status = .invalid ∨ r.status = .error →
      run_hotel_unit O oid docs d w = .ok
        { pubCount := w.pubCount + 2,
          events := w.events ++
            [ { order_id := oid, traveller_id := d.traveller_id,
                traveller_name := d.traveller_name,
                document_id := d.document_id,
                document_type := "hotel".data,
                status := "processing".data },
              { order_id := oid, traveller_id := d.traveller_id,
                traveller_name := d.traveller_name,
                document_id := d.document_id,
                document_type := "hotel".data,
                status := "failed".data, error := r.error } ],
          webhooks := w.webhooks }) ∧
    (∀ (docs : List DocumentPayload) (d : DocumentPayload) (w : World)
      (msg : Str),
      O.flight_ocr d.file_url = .error msg →
      run_flight_unit O oid docs d w = .ok
        { pubCount := w.pubCount + 2,
          events := w.events ++
            [ { order_id := oid, traveller_id := d.traveller_id,
                traveller_name := d.traveller_name,
                document_id := d.document_id,
                document_type := "flight".data,
                status := "processing".data },
              { order_id := oid, traveller_id := d.traveller_id,
                traveller_name := d.traveller_name,
                document_id := d.document_id,
                document_type := "flight".data,
                status := "failed".data, error := some msg } ],
          webhooks := w.webhooks }) ∧
    (∀ (tid : Str) (front back : DocumentPayload) (w : World)
      (r : PassportOCRResult),
      O.passport_ocr front.file_url back.file_url = .ok r →
      ¬ r.status = .success →
      run_passport_unit O oid (tid, ⟨some front, some back⟩) w = .ok
        { pubCount := w.pubCount + 2,
          events := w.events ++
            [ { order_id := oid, traveller_id := tid,
                traveller_name := front.traveller_name,
                document_id := front.document_id,
                document_type := "passport".data,
                status := "processing".data },
              { order_id := oid, traveller_id := tid,
                traveller_name := front.traveller_name,
                document_id := front.document_id,
                document_type := "passport".data,
                status := "failed".data,
                extracted_data := r.data.map .passportD,
                error := r.error } ],
          webhooks := w.webhooks ++
            [ { traveller_id := tid, ticket_type := "passport".data,
                document_id := front.document_id,
                back_document_id := some back.document_id,
                ocr_status_completed := false } ] }) := by
  refine ⟨?_, ?_, ?_, ?_⟩
  · intro docs d w r hr hst
    unfold run_flight_unit unit_catch
    simp only [publish_ok_all O hpub, hr]
    rcases hst with hst | hst <;>
      rw [hst] <;>
      cases r.data <;>
      simp +arith [publish_ok_all O hpub, List.append_assoc]
  · intro docs d w r hr hst
    unfold run_hotel_unit unit_catch
    simp only [publish_ok_all O hpub, hr]
    rcases hst with hst | hst <;>
      rw [hst] <;>
      cases r.data <;>
      simp +arith [publish_ok_all O hpub, List.append_assoc]
  · intro docs d w msg hr
    unfold run_flight_unit unit_catch
    simp only [publish_ok_all O hpub, hr]
    simp +arith [List.append_assoc]
  · intro tid front back w r hr hst
    unfold run_passport_unit unit_catch
    dsimp only
    simp only [publish_ok_all O hpub, hr]
    rw [if_neg hst]
    simp +arith [hst, List.append_assoc]

/-- C2 witness: the amended statement applied to a one-flight batch with
an erroring extraction. -/
theorem C2_failure_handling_witness :
    run_flight_unit errOracle "o1".data [flightDoc1] flightDoc1 {} = .ok
      { pubCount := 2,
        events :=
          [ { order_id := "o1".data, traveller_id := "t1".data,
              traveller_name := "Tr One".data, document_id := "docF1".data,
              document_type := "flight".data,
              status := "processing".data },
            { order_id := "o1".data, traveller_id := "t1".data,
              traveller_name := "Tr One".data, document_id := "docF1".data,
              document_type := "flight".data, status := "failed".data,
              error := some "boom".data } ],
        webhooks := [] } :=
  (C2_failure_handling errOracle "o1".data (fun _ => rfl)).1
    [flightDoc1] flightDoc1 {} _ rfl (Or.inr rfl)

/-- C2 counterexample: the claim as stated requires the Result Reporter
to be invoked with a failed outcome for a flight unit whose extraction
errors; in the code only the failed event is published and NO webhook is
posted — the full batch run ends with an empty webhook list. -/
theorem C2_no_webhook_on_ticket_failure :
    process_documents_async errOracle "o1".data [flightDoc1]
      = .ok
        { pubCount := 2,
          events :=
            [ { order_id := "o1".data, traveller_id := "t1".data,
                traveller_name := "Tr One".data,
                document_id := "docF1".data,
                document_type := "flight".data,
                status := "processing".data },
              { order_id := "o1".data, traveller_id := "t1".data,
                traveller_name := "Tr One".data,
                document_id := "docF1".data,
                document_type := "flight".data, status := "failed".data,
                error := some "boom".data } ],
          webhooks := [] } := by
  rfl

/-- C10: a flight or hotel unit whose extraction succeeds but whose
passenger/guest name the Identity Matcher cannot resolve (`none`) still
terminates as `mapped`, never `failed`: the mapped ProgressEvent and the
webhook report fall back to the document's own traveller id
(`map_ticket_to_passenger(...) || doc.traveller_id`). -/
theorem C10_unmatched_name_falls_back (O : Oracle) (oid : Str)
    (hpub : ∀ k, O.publish_ok k = true) :
    (∀ (docs : List DocumentPayload) (d : DocumentPayload) (w : World)
      (r : FlightOCRResult) (dd : FlightData),
      O.flight_ocr d.file_url = .ok r →
      r.status = .success → r.data = some dd →
      map_ticket_to_passenger dd.passenger_name (all_travellers docs)
        = none →
      ∃ ev, run_flight_unit O oid docs d w = .ok
          { pubCount := w.pubCount + 2,
            events := w.events ++
              [ { order_id := oid, traveller_id := d.traveller_id,
                  traveller_name := d.traveller_name,
                  document_id := d.document_id,
                  document_type := "flight".data,
                  status := "processing".data }, ev ],
            webhooks := w.webhooks ++
              [ { traveller_id := d.traveller_id,
                  ticket_type := "flight".data,
                  document_id := d.document_id,
                  ocr_status_completed := true,
                  mapped_to_traveller_id := some d.traveller_id } ] }
        ∧ ev.status = "mapped".data ∧ ev.traveller_id = d.traveller_id
        ∧ ev.document_id = d.document_id
        ∧ ev.extracted_data = some (.flightD dd)) ∧
    (∀ (docs : List DocumentPayload) (d : DocumentPayload) (w : World)
      (r : HotelOCRResult) (dd : HotelData),
      O.hotel_ocr d.file_url = .ok r →
      r.status = .success → r.data = some dd →
      map_ticket_to_passenger dd.guest_name (all_travellers docs) = none →
      ∃ ev, run_hotel_unit O oid docs d w = .ok
          { pubCount := w.pubCount + 2,
            events := w.events ++
              [ { order_id := oid, traveller_id := d.traveller_id,
                  traveller_name := d.traveller_name,
                  document_id := d.document_id,
                  document_type := "hotel".data,
                  status := "processing".data }, ev ],
            webhooks := w.webhooks ++
              [ { traveller_id := d.traveller_id,
                  ticket_type := "hotel".data,
                  document_id := d.document_id,
                  ocr_status_completed := true,
                  mapped_to_traveller_id := some d.traveller_id } ] }
        ∧ ev.status = "mapped".data ∧ ev.traveller_id = d.traveller_id
        ∧ ev.document_id = d.document_id
        ∧ ev.extracted_data = some (.hotelD dd)) := by
  constructor
  · intro docs d w r dd hr hs hd hmap
    unfold run_flight_unit unit_catch
    simp only [publish_ok_all O hpub, hr]
    rw [hs, hd]
    dsimp only
    rw [hmap]
    refine ⟨{ order_id := oid, traveller_id := d.traveller_id,
              traveller_name := fallback_name docs d d.traveller_id,
              document_id := d.document_id,
              document_type := "flight".data, status := "mapped".data,
              extracted_data := some (.flightD dd), error := none },
      ?_, rfl, rfl, rfl, rfl⟩
    simp +arith +decide [hs, fallback_name, List.append_assoc]
  · intro docs d w r dd hr hs hd hmap
    unfold run_hotel_unit unit_catch
    simp only [publish_ok_all O hpub, hr]
    rw [hs, hd]
    dsimp only
    rw [hmap]
    refine ⟨{ order_id := oid, traveller_id := d.traveller_id,
              traveller_name := fallback_name docs d d.traveller_id,
              document_id := d.document_id,
              document_type := "hotel".data, status := "mapped".data,
              extracted_data := some (.hotelD dd), error := none },
      ?_, rfl, rfl, rfl, rfl⟩
    simp +arith +decide [hs, fallback_name, List.append_assoc]

/-- C10 witness: the flight part applied to a one-document batch whose
successful extraction has no passenger name, so the matcher yields
`none`; the unit is mapped to the document's own traveller. -/
theorem C10_unmatched_name_witness :
    ∃ ev, run_flight_unit okNoNameOracle "o1".data [flightDoc1] flightDoc1
        {} = .ok
        { pubCount := 2,
          events :=
            [ { order_id := "o1".data, traveller_id := "t1".data,
                traveller_name := "Tr One".data,
                document_id := "docF1".data,
                document_type := "flight".data,
                status := "processing".data }, ev ],
          webhooks :=
            [ { traveller_id := "t1".data, ticket_type := "flight".data,
                document_id := "docF1".data, ocr_status_completed := true,
                mapped_to_traveller_id := some "t1".data } ] }
      ∧ ev.status = "mapped".data ∧ ev.traveller_id = "t1".data
      ∧ ev.document_id = "docF1".data
      ∧ ev.extracted_data = some (.flightD {}) :=
  (C10_unmatched_name_falls_back okNoNameOracle "o1".data (fun _ => rfl)).1
    [flightDoc1] flightDoc1 {} _ {} rfl rfl rfl rfl


/-- C6: flight validation counts its fixed 12-keyword set and hotel
validation its 13-keyword set against the lower-cased text; fewer than 3
distinct hits is rejected as `invalid` carrying the raw text (regardless
of length), 3 or more hits passes validation (`success`). -/
theorem C6_keyword_validation :
    flight_keywords.length = 12 ∧ hotel_keywords.length = 13 ∧
    (∀ text : Str,
      (keyword_hits flight_keywords text < 3 →
        flight_ocr_from_text text =
          { status := .invalid,
            error := some "Text does not contain flight ticket information".data,
            raw_text := some text }) ∧
      (3 ≤ keyword_hits flight_keywords text →
        (flight_ocr_from_text text).status = .success)) ∧
    (∀ text : Str,
      (keyword_hits hotel_keywords text < 3 →
        hotel_ocr_from_text text =
          { status := .invalid,
            error := some "Text does not contain hotel booking information".data,
            raw_text := some text }) ∧
      (3 ≤ keyword_hits hotel_keywords text →
        (hotel_ocr_from_text text).status = .success)) := by
  refine ⟨by decide, by decide, fun text => ⟨fun h => ?_, fun h => ?_⟩,
    fun text => ⟨fun h => ?_, fun h => ?_⟩⟩ <;>
    simp only [flight_ocr_from_text, hotel_ocr_from_text,
      validate_flight_ticket, validate_hotel_booking, keyword_hits] at h ⊢ <;>
    first
      | (rw [if_pos (by simp only [decide_eq_false_iff_not]; omega)])
      | (rw [if_neg (by simp only [decide_eq_false_iff_not]; omega)])

/-- C6 witness: a three-keyword flight text passes, a two-keyword hotel
text is rejected with the raw text attached. -/
theorem C6_keyword_validation_witness :
    keyword_hits flight_keywords "pnr flight boarding".data ≥ 3 ∧
    (flight_ocr_from_text "pnr flight boarding".data).status = .success ∧
    keyword_hits hotel_keywords "guest room".data < 3 ∧
    hotel_ocr_from_text "guest room".data =
      { status := .invalid,
        error := some "Text does not contain hotel booking information".data,
        raw_text := some "guest room".data } :=
  ⟨by decide,
   (C6_keyword_validation.2.2.1 "pnr flight boarding".data).2 (by decide),
   by decide,
   (C6_keyword_validation.2.2.2 "guest room".data).1 (by decide)⟩

/-- C7: on the spec's scenario text the extractor does produce the
claimed PNR, dates, times and airport codes, but NOT the claimed flight
number and airline: both flight-number patterns require the match to
start with 2-3 letters, so the digit-leading code "6E" can never be
matched (the code's own comment says the pattern "Matches 6E 1402");
instead the first letters-then-digits fragment "Apr 2025" wins, giving
flight_number "APR2025" and airline "APR". -/
theorem C7_flight_scenario_code_bug :
    (extract_flight_data c7_scenario_text).pnr = some "SISCPF".data ∧
    (extract_flight_data c7_scenario_text).departure_date
      = some "21 Apr 2025".data ∧
    (extract_flight_data c7_scenario_text).arrival_date
      = some "23 Apr 2025".data ∧
    (extract_flight_data c7_scenario_text).departure_time
      = some "06:20 hrs".data ∧
    (extract_flight_data c7_scenario_text).arrival_time
      = some "21:55 hrs".data ∧
    (extract_flight_data c7_scenario_text).departure_airport
      = some "BOM".data ∧
    (extract_flight_data c7_scenario_text).arrival_airport
      = some "AUH".data ∧
    (extract_flight_data c7_scenario_text).flight_number
      = some "APR2025".data ∧
    (extract_flight_data c7_scenario_text).flight_number
      ≠ some "6E1402".data ∧
    (extract_flight_data c7_scenario_text).airline = some "APR".data ∧
    (extract_flight_data c7_scenario_text).airline ≠ some "6E".data := by
  decide

/-- C8 counterexample: in "1/2/2025 3 Apr 2025" the numeric date
"1/2/2025" is the first date match in document order (it starts at index
0; the month-name match starts at index 9), yet `departure_date` is the
month-name match "3 Apr 2025" and the text-initial date becomes
`arrival_date` — refuting collection "in document order across both
patterns". -/
theorem C8_dates_not_document_order :
    (jsMatchAll flight_date_pattern2 c8_text).map
        (fun m => (m.start, m.matched)) = [(0, "1/2/2025".data)] ∧
    (jsMatchAll (flight_date_pattern1 (c8_text.length + 1)) c8_text).map
        (fun m => (m.start, m.matched)) = [(9, "3 Apr 2025".data)] ∧
    (extract_flight_data c8_text).departure_date = some "3 Apr 2025".data ∧
    (extract_flight_data c8_text).departure_date ≠ some "1/2/2025".data ∧
    (extract_flight_data c8_text).arrival_date = some "1/2/2025".data := by
  decide

/-- C8 (amended): the date matches are collected pattern by pattern —
all matches of the day-month-name-year pattern in document order, then
all matches of the numeric pattern in document order — and the first
element of that concatenation becomes `departure_date`, the second
`arrival_date`: positional assignment, not chronological comparison. -/
theorem C8_dates_positional_assignment (text : Str) :
    (extract_flight_data text).departure_date
        = (flight_dates_found text).get? 0 ∧
    (extract_flight_data text).arrival_date
        = (flight_dates_found text).get? 1 :=
  ⟨rfl, rfl⟩

/-- C9: `score(a,a) = 1.0` for every non-empty name (the exact-equality
branch always fires on a name compared with itself), and the score is
not symmetric: the token-overlap branch counts the caller's tokens that
occur among the argument's tokens, so "x x y" vs "x z z" scores 2/3 one
way and 1/3 the other. -/
theorem C9_score_reflexive_not_symmetric :
    (∀ a : Str, a ≠ [] → fuzzy_match_name a a = 1) ∧
    fuzzy_match_name "x x y".data "x z z".data
      ≠ fuzzy_match_name "x z z".data "x x y".data := by
  constructor
  · intro a _
    simp [fuzzy_match_name]
  · have h1 : splitOnSpace (normalize "x x y".data)
        = ["x".data, "x".data, "y".data] := by decide
    have h2 : splitOnSpace (normalize "x z z".data)
        = ["x".data, "z".data, "z".data] := by decide
    have e1 : fuzzy_match_name "x x y".data "x z z".data = 2/3 := by
      simp +decide [fuzzy_match_name, h1, h2]
      try norm_num
    have e2 : fuzzy_match_name "x z z".data "x x y".data = 1/3 := by
      simp +decide [fuzzy_match_name, h1, h2]
      try norm_num
    rw [e1, e2]
    norm_num

/-- C9 witness: the reflexivity part applied at the concrete non-empty
name "John". -/
theorem C9_score_reflexive_witness :
    ("John".data ≠ ([] : Str)) ∧
    fuzzy_match_name "John".data "John".data = 1 :=
  ⟨by decide, C9_score_reflexive_not_symmetric.1 "John".data (by decide)⟩

example : validate_flight_ticket "pnr flight boarding".data = true := by decide
example : validate_flight_ticket "pnr flight".data = false := by decide
example : fuzzy_match_name "John".data "John Doe".data = 0.8 := by
  simp +decide [fuzzy_match_name]
example : map_ticket_to_passenger (some "John Doe".data) [] = none := by decide

end Compass
